import Mathlib

/-!
Verification development for the parallel-gs GS front-end
(src/gs/gs_interface.cpp, src/gs/page_tracker.hpp).

The definitions below are a shallow embedding of the translated source.
Machine integers are modelled as `Nat` (all relevant source values are
unsigned and the modelled paths never overflow their C++ types);
signed pixel coordinates are modelled as `Int`.

Register bitfield layouts (GIFTag, PRIM, FRAME, ...) live in headers that
are not part of src/; the GIFTag layout is given verbatim by the spec
(§6 "GIF data layout"), the GS register layouts are the standard,
documented GS layouts the spec's field names refer to.
-/

namespace ParallelGS

/-! ## GIF path state machine
Embedding of `GSInterface::gif_transfer` (gs_interface.cpp:2946-3050) and
`GSInterface::update_optimized_gif_handler` (gs_interface.cpp:2036-2225).

State that the dispatched register handlers mutate (register file, vertex
queue, render pass, back-end calls) is represented by the *event trace*:
both the generic dispatcher and every optimized whole-loop handler invoke
exactly the per-slot handlers (`packed_ST`, `packed_RGBAQ`,
`packed_XYZ`, `write_register`, ...), so two executions produce equal
downstream state iff they feed the same sequence of (slot, qword) events
to those handlers.  The optimized handlers (`packed_STQRGBAXYZ`,
`packed_UVRGBAXYZ`, `packed_STXYZSTRGBAXYZ_sprite`, `packed_ADONLY`)
each consume, per loop, the qwords of that loop slot by slot in order,
which is precisely the generic per-slot event sequence; the model
therefore only needs to know *whether* an optimized handler is installed
(it changes the loop/cursor accounting), not which one.
The PRIM register's 3-bit primitive-type field is tracked explicitly,
because `update_optimized_gif_handler` consults it.
-/

/-- GIFTag decode per spec §6: NLOOP bits 0..14, PRE bit 46, PRIM bits
47..57, FLG bits 58..59, NREG bits 60..63, REGS bits 64..127. -/
structure GIFTag where
  nloop : Nat
  pre   : Nat
  prim  : Nat
  flg   : Nat
  nreg  : Nat
  regs  : Nat
  deriving Repr, DecidableEq

instance : Inhabited GIFTag := ⟨⟨0, 0, 0, 0, 0, 0⟩⟩

/-- Decode a 128-bit qword (low 64 bits, high 64 bits) as a GIFTag. -/
def decodeGIFTag (lo hi : Nat) : GIFTag :=
  { nloop := lo &&& 0x7fff
    pre   := (lo >>> 46) &&& 1
    prim  := (lo >>> 47) &&& 0x7ff
    flg   := (lo >>> 58) &&& 3
    nreg  := (lo >>> 60) &&& 0xf
    regs  := hi }

/-- GIF packed register descriptor values (GIFAddr in the headers;
the values are the GS-documented 4-bit packed descriptors). -/
def GIFAddrPRIM : Nat := 0x0
def GIFAddrRGBAQ : Nat := 0x1
def GIFAddrST : Nat := 0x2
def GIFAddrUV : Nat := 0x3
def GIFAddrXYZF2 : Nat := 0x4
def GIFAddrXYZ2 : Nat := 0x5
def GIFAddrAD : Nat := 0xe

/-- FLG values (GIFTagBits): PACKED=0, REGLIST=1, IMAGE=2. -/
def FLG_PACKED : Nat := 0
def FLG_REGLIST : Nat := 1
def FLG_IMAGE : Nat := 2

/-- One observable dispatch performed while walking a GIF stream. -/
inductive GifEvent where
  /-- `a_d_PRIM(path.tag.PRIM)` issued for a PACKED tag with PRE set. -/
  | primWrite (payload : Nat)
  /-- PACKED A+D slot: `write_register(ad->desc.ADDR, ad->desc.data)`. -/
  | adWrite (addr data : Nat)
  /-- PACKED slot dispatched through `packed_handlers[addr]`. -/
  | packedReg (slot lo hi : Nat)
  /-- REGLIST 64-bit payload dispatched through `reglist_handlers[addr]`. -/
  | regListReg (slot data : Nat)
  /-- IMAGE qword forwarded to HWREG (`a_d_HWREG_multi`). -/
  | imageData (lo hi : Nat)
  deriving Repr, DecidableEq

/-- Per-path GIF state (`GIFPath`: tag + loop/reg cursors), the tracked
PRIM primitive-type field, whether an optimized whole-loop handler is
installed for the path, the emitted event trace, and bookkeeping for the
final loop cursor `i` of the last transfer (`consumedEnd`, in qwords) and
for the source's non-terminating case (`stuck`). -/
structure GifPathState where
  tag : GIFTag := default
  loop : Nat := 0
  reg : Nat := 0
  primType : Nat := 0
  opt : Bool := false
  events : List GifEvent := []
  consumedEnd : Nat := 0
  stuck : Bool := false
  deriving Repr, DecidableEq

/-- The constant masks of `update_optimized_gif_handler`
(gs_interface.cpp:2110-2152), built exactly as in the source. -/
def STQRGBAXYZ2_Mask : Nat :=
  GIFAddrST ||| (GIFAddrRGBAQ <<< 4) ||| (GIFAddrXYZ2 <<< 8)

def STQRGBAXYZF2_Mask : Nat :=
  GIFAddrST ||| (GIFAddrRGBAQ <<< 4) ||| (GIFAddrXYZF2 <<< 8)

def STQRGBAXYZ2_TriList_Mask : Nat :=
  STQRGBAXYZ2_Mask ||| (STQRGBAXYZ2_Mask <<< 12) ||| (STQRGBAXYZ2_Mask <<< 24)

def STQRGBAXYZF2_TriList_Mask : Nat :=
  STQRGBAXYZF2_Mask ||| (STQRGBAXYZF2_Mask <<< 12) ||| (STQRGBAXYZF2_Mask <<< 24)

def STQRGBAXYZ2_LineList_Mask : Nat :=
  STQRGBAXYZ2_Mask ||| (STQRGBAXYZ2_Mask <<< 12)

def STQRGBAXYZF2_LineList_Mask : Nat :=
  STQRGBAXYZF2_Mask ||| (STQRGBAXYZF2_Mask <<< 12)

def UVRGBAXYZ2_Mask : Nat :=
  GIFAddrUV ||| (GIFAddrRGBAQ <<< 4) ||| (GIFAddrXYZ2 <<< 8)

def UVRGBAXYZF2_Mask : Nat :=
  GIFAddrUV ||| (GIFAddrRGBAQ <<< 4) ||| (GIFAddrXYZF2 <<< 8)

def STXYZFSTRGBAXYZF_Mask : Nat :=
  GIFAddrST ||| (GIFAddrXYZF2 <<< 4) ||| (GIFAddrST <<< 8) |||
  (GIFAddrRGBAQ <<< 12) ||| (GIFAddrXYZF2 <<< 16)

def STXYZFSTRGBAXYZ_Mask : Nat :=
  GIFAddrST ||| (GIFAddrXYZ2 <<< 4) ||| (GIFAddrST <<< 8) |||
  (GIFAddrRGBAQ <<< 12) ||| (GIFAddrXYZ2 <<< 16)

/-- PRIMType values (3-bit PRIM field): Sprite=6, TriangleList=3,
LineList=1. -/
def PRIM_LineList : Nat := 1
def PRIM_TriangleList : Nat := 3
def PRIM_Sprite : Nat := 6

/-- `0x1111111111111111ull * GIFAddr::A_D` from the ADONLY recognizer. -/
def adOnlyMask : Nat := GIFAddrAD * 0x1111111111111111

/-- `GSInterface::update_optimized_gif_handler` (gs_interface.cpp:2036-2225),
reduced to whether a handler is installed (see the section comment: at
event level every installed handler replays the generic per-slot
dispatch, so only installation matters).  `primType` is the current
value of `registers.prim.desc.PRIM`. -/
def isOptimizedTag (tag : GIFTag) (primType : Nat) : Bool :=
  if tag.flg != FLG_PACKED || tag.nloop == 0 then
    false
  else
    let nreg := tag.nreg
    if nreg == 3 && (tag.regs &&& 0xfff) == STQRGBAXYZ2_Mask then true
    else if nreg == 3 && (tag.regs &&& 0xfff) == STQRGBAXYZF2_Mask then true
    else if nreg == 3 && (tag.regs &&& 0xfff) == UVRGBAXYZ2_Mask then true
    else if nreg == 3 && (tag.regs &&& 0xfff) == UVRGBAXYZF2_Mask then true
    else if nreg == 5 && (tag.regs &&& 0xfffff) == STXYZFSTRGBAXYZF_Mask
            && primType == PRIM_Sprite then true
    else if nreg == 5 && (tag.regs &&& 0xfffff) == STXYZFSTRGBAXYZ_Mask
            && primType == PRIM_Sprite then true
    else if nreg == 6 && (tag.regs &&& 0xffffff) == STQRGBAXYZ2_LineList_Mask
            && primType == PRIM_LineList then true
    else if nreg == 6 && (tag.regs &&& 0xffffff) == STQRGBAXYZF2_LineList_Mask
            && primType == PRIM_LineList then true
    else if nreg == 9 && (tag.regs &&& 0xfffffffff) == STQRGBAXYZ2_TriList_Mask
            && primType == PRIM_TriangleList then true
    else if nreg == 9 && (tag.regs &&& 0xfffffffff) == STQRGBAXYZF2_TriList_Mask
            && primType == PRIM_TriangleList then true
    else
      let regMask := if nreg == 0 then 2 ^ 64 - 1 else 2 ^ (nreg * 4) - 1
      (tag.regs &&& regMask) == (adOnlyMask &&& regMask)

/-- The event the generic PACKED dispatcher emits for register slot
`reg` of the current tag applied to qword `(lo, hi)`
(gs_interface.cpp:2994-3005).  The A+D packed form carries the register
address in bits 64..71 and the payload in bits 0..63. -/
def packedSlotEvent (tag : GIFTag) (reg lo hi : Nat) : GifEvent :=
  let addr := (tag.regs >>> (4 * reg)) &&& 0xf
  if addr == GIFAddrAD then
    .adWrite (hi &&& 0xff) lo
  else
    .packedReg addr lo hi

/-- Track the PRIM register's primitive-type field across an event:
`a_d_PRIM` updates `PRIM` regardless of PRMODECONT.AC
(gs_interface.cpp:2243-2253), and the PACKED slot 0 and REGLIST slot 0
forward to `a_d_PRIM`. -/
def applyEventPrim (primType : Nat) : GifEvent → Nat
  | .primWrite p => p &&& 7
  | .adWrite addr data => if addr == 0 then data &&& 7 else primType
  | .packedReg slot lo _ => if slot == GIFAddrPRIM then lo &&& 7 else primType
  | .regListReg slot data => if slot == GIFAddrPRIM then data &&& 7 else primType
  | .imageData _ _ => primType

/-- Append one event to the path state, updating the tracked PRIM field. -/
def pushEvent (s : GifPathState) (e : GifEvent) : GifPathState :=
  { s with events := s.events ++ [e], primType := applyEventPrim s.primType e }

def pushEvents (s : GifPathState) (es : List GifEvent) : GifPathState :=
  es.foldl pushEvent s

/-- Read qword `i` of the transfer.  Reads past the end of the buffer
(which the source performs out of bounds) return the zero qword. -/
def qwordAt (qs : List (Nat × Nat)) (i : Nat) : Nat × Nat :=
  qs.getD i (0, 0)

/-- The events an optimized whole-loop handler emits when told to run
`nloops` loops starting at qword `i`: per loop, the tag's `nreg` slots in
order (see the section comment; this is literally what
`packed_ADONLY` / `packed_STQRGBAXYZ` / `packed_UVRGBAXYZ` /
`packed_STXYZSTRGBAXYZ_sprite` do per loop). -/
def optimizedLoopEvents (tag : GIFTag) (nreg : Nat) (qs : List (Nat × Nat))
    (i nloops : Nat) : List GifEvent :=
  (List.range (nloops * nreg)).map fun k =>
    let q := qwordAt qs (i + k)
    packedSlotEvent tag (k % nreg) q.1 q.2

/-- One `gif_transfer` main-loop iteration plus recursion
(gs_interface.cpp:2964-3049).  `useOpt = false` forces the generic
register-at-a-time dispatcher (the claim's baseline); `useOpt = true` is
the source behavior.  `sz` is the transfer size in qwords, `i` the loop
cursor.  The fuel argument only bounds the recursion; every source
iteration advances `i` except the optimized branch with
`nloops_to_run = 0`, where the source spins forever and the model stops
with `stuck := true`. -/
def gifTransferGo (useOpt : Bool) (qs : List (Nat × Nat)) (sz : Nat) :
    Nat → GifPathState → Nat → GifPathState
  | 0, s, i => { s with stuck := true, consumedEnd := i }
  | fuel + 1, s, i =>
    if i ≥ sz then
      { s with consumedEnd := i }
    else
      let nreg := if s.tag.nreg == 0 then 16 else s.tag.nreg
      if s.loop == s.tag.nloop then
        -- needs_gif_tag
        let q := qwordAt qs i
        let tag := decodeGIFTag q.1 q.2
        let s := { s with tag := tag }
        let s :=
          if tag.flg == FLG_PACKED && tag.pre != 0 then
            pushEvent s (.primWrite tag.prim)
          else s
        let s := { s with opt := useOpt && isOptimizedTag tag s.primType }
        gifTransferGo useOpt qs sz fuel { s with loop := 0, reg := 0 } (i + 1)
      else if s.reg == 0 && s.opt then
        -- optimized whole-loop handler
        let nloops := min (sz / nreg) (s.tag.nloop - s.loop)
        if nloops == 0 then
          -- the source loops forever here: i never advances
          { s with stuck := true, consumedEnd := i }
        else
          let s := pushEvents s (optimizedLoopEvents s.tag nreg qs i nloops)
          gifTransferGo useOpt qs sz fuel
            { s with loop := s.loop + nloops } (i + nloops * nreg)
      else if s.tag.flg == FLG_PACKED then
        let q := qwordAt qs i
        let s := pushEvent s (packedSlotEvent s.tag s.reg q.1 q.2)
        let r := s.reg + 1
        let s :=
          if r == nreg then { s with loop := s.loop + 1, reg := 0 }
          else { s with reg := r }
        gifTransferGo useOpt qs sz fuel s (i + 1)
      else if s.tag.flg == FLG_REGLIST then
        -- two 64-bit payloads per qword; the second is skipped when the
        -- final loop closes after the first
        let q := qwordAt qs i
        let slot0 := (s.tag.regs >>> (4 * s.reg)) &&& 0xf
        let s := pushEvent s (.regListReg slot0 q.1)
        let r := s.reg + 1
        let s :=
          if r == nreg then { s with loop := s.loop + 1, reg := 0 }
          else { s with reg := r }
        let s :=
          if s.reg == 0 && s.loop == s.tag.nloop then
            s
          else
            let slot1 := (s.tag.regs >>> (4 * s.reg)) &&& 0xf
            let s := pushEvent s (.regListReg slot1 q.2)
            let r := s.reg + 1
            if r == nreg then { s with loop := s.loop + 1, reg := 0 }
            else { s with reg := r }
        gifTransferGo useOpt qs sz fuel s (i + 1)
      else
        -- IMAGE: spam HWREG
        let nloops := min (sz - i) (s.tag.nloop - s.loop)
        let s := pushEvents s ((List.range nloops).map fun k =>
          let q := qwordAt qs (i + k)
          .imageData q.1 q.2)
        gifTransferGo useOpt qs sz fuel
          { s with loop := s.loop + nloops } (i + nloops)

/-- `GSInterface::gif_transfer` with the optimized whole-loop fast path
active, as in the source. -/
def gifTransfer (s : GifPathState) (qs : List (Nat × Nat)) : GifPathState :=
  gifTransferGo true qs qs.length (qs.length + 1) s 0

/-- `GSInterface::gif_transfer` with every qword dispatched one register
at a time through the generic PACKED dispatcher (the optimized handler
table forced empty). -/
def gifTransferGeneric (s : GifPathState) (qs : List (Nat × Nat)) : GifPathState :=
  gifTransferGo false qs qs.length (qs.length + 1) s 0

/-! ## Register file
Decoded views of the GS registers the modelled code paths read.  The
source compares registers by their raw 64-bit value
(`update_internal_register`, gs_interface.cpp:2558-2566); on the fields
modelled here the decode is injective, so structure equality coincides
with raw-bit equality. -/

/-- PRIM register fields (PRIMBits): PRIM 0..2, IIP 3, TME 4, FGE 5,
ABE 6, AA1 7, FST 8, CTXT 9, FIX 10. -/
structure PRIMReg where
  prim : Nat := 0
  iip : Nat := 0
  tme : Nat := 0
  fge : Nat := 0
  abe : Nat := 0
  aa1 : Nat := 0
  fst : Nat := 0
  ctxt : Nat := 0
  fix : Nat := 0
  deriving Repr, DecidableEq

def decodePRIM (p : Nat) : PRIMReg :=
  { prim := p &&& 7, iip := (p >>> 3) &&& 1, tme := (p >>> 4) &&& 1
    fge := (p >>> 5) &&& 1, abe := (p >>> 6) &&& 1, aa1 := (p >>> 7) &&& 1
    fst := (p >>> 8) &&& 1, ctxt := (p >>> 9) &&& 1, fix := (p >>> 10) &&& 1 }

/-- FRAME register fields: FBP 0..8 (in 2-KiB-word pages), FBW 16..21,
PSM 24..29, FBMSK 32..63. -/
structure FRAMEReg where
  fbp : Nat := 0
  fbw : Nat := 0
  psm : Nat := 0
  fbmsk : Nat := 0
  deriving Repr, DecidableEq

def decodeFRAME (p : Nat) : FRAMEReg :=
  { fbp := p &&& 0x1ff, fbw := (p >>> 16) &&& 0x3f
    psm := (p >>> 24) &&& 0x3f, fbmsk := (p >>> 32) &&& 0xffffffff }

/-- ZBUF register fields: ZBP 0..8, PSM 24..27, ZMSK 32. -/
structure ZBUFReg where
  zbp : Nat := 0
  psm : Nat := 0
  zmsk : Nat := 0
  deriving Repr, DecidableEq

def decodeZBUF (p : Nat) : ZBUFReg :=
  { zbp := p &&& 0x1ff, psm := (p >>> 24) &&& 0xf, zmsk := (p >>> 32) &&& 1 }

/-- TEST register fields: ATE 0, ATST 1..3, AREF 4..11, AFAIL 12..13,
DATE 14, DATM 15, ZTE 16, ZTST 17..18. -/
structure TESTReg where
  ate : Nat := 0
  atst : Nat := 0
  aref : Nat := 0
  afail : Nat := 0
  date : Nat := 0
  datm : Nat := 0
  zte : Nat := 0
  ztst : Nat := 0
  deriving Repr, DecidableEq

def decodeTEST (p : Nat) : TESTReg :=
  { ate := p &&& 1, atst := (p >>> 1) &&& 7, aref := (p >>> 4) &&& 0xff
    afail := (p >>> 12) &&& 3, date := (p >>> 14) &&& 1, datm := (p >>> 15) &&& 1
    zte := (p >>> 16) &&& 1, ztst := (p >>> 17) &&& 3 }

/-- TEST-related constants (TESTBits): `ZTE_UNDEFINED = 0`,
`ZTE_ENABLED = 1`; `ZTST_NEVER = 0`, `ZTST_ALWAYS = 1`, `ZTST_GEQUAL = 2`,
`ZTST_GREATER = 3`; `ATST_NEVER = 0`, `ATST_ALWAYS = 1`;
`AFAIL_KEEP = 0`. -/
def ZTE_UNDEFINED : Nat := 0
def ZTE_ENABLED : Nat := 1
def ZTST_NEVER : Nat := 0
def ZTST_GREATER : Nat := 3
def ATST_NEVER : Nat := 0
def ATST_ALWAYS : Nat := 1
def AFAIL_KEEP : Nat := 0

/-- `TESTBits::has_z_test()`: a real depth comparison, i.e. ZTST is
GEQUAL or GREATER (NEVER degenerates, ALWAYS is no test). -/
def TESTReg.hasZTest (t : TESTReg) : Bool := t.ztst ≥ 2

/-- SCISSOR register fields: SCAX0 0..10, SCAX1 16..26, SCAY0 32..42,
SCAY1 48..58. -/
structure SCISSORReg where
  scax0 : Nat := 0
  scax1 : Nat := 0
  scay0 : Nat := 0
  scay1 : Nat := 0
  deriving Repr, DecidableEq

def decodeSCISSOR (p : Nat) : SCISSORReg :=
  { scax0 := p &&& 0x7ff, scax1 := (p >>> 16) &&& 0x7ff
    scay0 := (p >>> 32) &&& 0x7ff, scay1 := (p >>> 48) &&& 0x7ff }

/-- XYOFFSET register fields: OFX 0..15, OFY 32..47. -/
structure XYOFFSETReg where
  ofx : Nat := 0
  ofy : Nat := 0
  deriving Repr, DecidableEq

def decodeXYOFFSET (p : Nat) : XYOFFSETReg :=
  { ofx := p &&& 0xffff, ofy := (p >>> 32) &&& 0xffff }

/-- ALPHA register fields: A 0..1, B 2..3, C 4..5, D 6..7, FIX 32..39. -/
structure ALPHAReg where
  a : Nat := 0
  b : Nat := 0
  c : Nat := 0
  d : Nat := 0
  fix : Nat := 0
  deriving Repr, DecidableEq

def decodeALPHA (p : Nat) : ALPHAReg :=
  { a := p &&& 3, b := (p >>> 2) &&& 3, c := (p >>> 4) &&& 3
    d := (p >>> 6) &&& 3, fix := (p >>> 32) &&& 0xff }

/-- TEX0 register fields: TBP0 0..13, TBW 14..19, PSM 20..25, TW 26..29,
TH 30..33, TCC 34, TFX 35..36, CBP 37..50, CPSM 51..54, CSM 55,
CSA 56..60, CLD 61..63. -/
structure TEX0Reg where
  tbp0 : Nat := 0
  tbw : Nat := 0
  psm : Nat := 0
  tw : Nat := 0
  th : Nat := 0
  tcc : Nat := 0
  tfx : Nat := 0
  cbp : Nat := 0
  cpsm : Nat := 0
  csm : Nat := 0
  csa : Nat := 0
  cld : Nat := 0
  deriving Repr, DecidableEq

def decodeTEX0 (p : Nat) : TEX0Reg :=
  { tbp0 := p &&& 0x3fff, tbw := (p >>> 14) &&& 0x3f, psm := (p >>> 20) &&& 0x3f
    tw := (p >>> 26) &&& 0xf, th := (p >>> 30) &&& 0xf, tcc := (p >>> 34) &&& 1
    tfx := (p >>> 35) &&& 3, cbp := (p >>> 37) &&& 0x3fff
    cpsm := (p >>> 51) &&& 0xf, csm := (p >>> 55) &&& 1
    csa := (p >>> 56) &&& 0x1f, cld := (p >>> 61) &&& 7 }

/-- TEX0Bits CLD values: 0 none, 1 load, 2/3 load+write CBP0/1,
4/5 compare-and-load CBP0/1; CSM values: 0 = CSM_LAYOUT_LINE (the
non-RECT layout), 1 = CSM_LAYOUT_RECT. -/
def CLD_LOAD : Nat := 1
def CLD_LOAD_WRITE_CBP0 : Nat := 2
def CLD_LOAD_WRITE_CBP1 : Nat := 3
def CLD_COMPARE_LOAD_CBP0 : Nat := 4
def CLD_COMPARE_LOAD_CBP1 : Nat := 5
def CSM_LAYOUT_LINE : Nat := 0
def CSM_LAYOUT_RECT : Nat := 1
/-- `TEX0Bits::COU_SCALE` — COU is stored in 16-pixel units. -/
def COU_SCALE : Nat := 16

/-- TEXCLUT register fields: CBW 0..5, COU 6..11, COV 12..21. -/
structure TEXCLUTReg where
  cbw : Nat := 0
  cou : Nat := 0
  cov : Nat := 0
  deriving Repr, DecidableEq

def decodeTEXCLUT (p : Nat) : TEXCLUTReg :=
  { cbw := p &&& 0x3f, cou := (p >>> 6) &&& 0x3f, cov := (p >>> 12) &&& 0x3ff }

/-- Pixel-storage-mode constants used by the modelled paths (the standard
GS encodings referenced by the spec's PSMCT32/PSMT8/... names). -/
def PSMCT32 : Nat := 0
def PSMCT16 : Nat := 2
def PSMT8 : Nat := 19
def PSMT4 : Nat := 20
def PSMT8H : Nat := 27

/-- SCANMSK MSK values: 0/1 no mask, 2 skip even, 3 skip odd
(`SCANMSKBits::has_mask`, MSK_SKIP_EVEN = 2). -/
def MSK_SKIP_EVEN : Nat := 2

def scanmskHasMask (msk : Nat) : Bool := msk ≥ 2

/-! ## Interface state
State of `GSInterface` as touched by the modelled code paths: register
file, vertex queue, state tracker (dirty flags and memoized derived
state), render-pass accumulator, and the ordered trace of page-tracker
and back-end calls.

The page tracker's implementation (page_tracker.cpp) is not under src/;
its calls are modelled from the spec (§4.2): `mark_fb_write` /
`mark_fb_read` / `mark_texture_read` / `register_cached_clut_clobber`
record their rectangle (no hazard is raised because the modelled
scenarios never have pending copies or foreign writes), and
`PageTracker::flush_render_pass(reason)` is an unconditional flush
request to the callback, modelled as `GSInterface::flush` with the
render-pass phase bit.  The back-end (`GSRenderer`) is likewise outside
src/: `update_palette_cache` returns a fresh instance id, modelled by a
counter; the other back-end entry points are recorded as trace events
per their §6 contracts. -/

/-- Dirty-flag bits (`StateDirtyFlagBits`); the claims depend only on
their distinctness. -/
def DIRTY_DEGENERATE : Nat := 1
def DIRTY_STATE : Nat := 2
def DIRTY_PRIM_TEMPLATE : Nat := 4
def DIRTY_TEX : Nat := 8
def DIRTY_FB : Nat := 16
def DIRTY_FEEDBACK : Nat := 32
def DIRTY_ALL : Nat := 63

/-- Subpixel precision: coordinates are in 1/16 pixel (spec: "subpixel
coords (×16)"), so SUBPIXEL_BITS = 4. -/
def SUBPIXEL_BITS : Nat := 4

/-- FBW counts 64-pixel units (FRAME=(FBW=10) is a 640-pixel buffer). -/
def BUFFER_WIDTH_SCALE : Nat := 64

/-- The fixed 8×8 coarse tiles of the binning cost estimate (spec §6:
"using 8×8 coarse tiles"): FB_SWIZZLE_{WIDTH,HEIGHT}_LOG2 = 3. -/
def FB_SWIZZLE_WIDTH_LOG2 : Nat := 3
def FB_SWIZZLE_HEIGHT_LOG2 : Nat := 3

/-- Page-tracker flush phase bits (page_tracker.hpp:99-115). -/
def FLUSH_HOST_VRAM_SYNC_BIT : Nat := 1
def FLUSH_COPY_BIT : Nat := 2
def FLUSH_CACHE_BIT : Nat := 4
def FLUSH_FB_BIT : Nat := 8
def FLUSH_WRITE_BACK_BIT : Nat := 16

/-- `FlushReason` (page_tracker.hpp:118-125). -/
inductive FlushReason where
  | fbPointer
  | overflow
  | textureHazard
  | copyHazard
  | submissionFlush
  deriving Repr, DecidableEq

/-- A `PageRect` as produced by `compute_fb_rect` / `compute_z_rect`
(page_tracker.hpp:84-92). -/
structure PageRectM where
  basePage : Nat := 0
  pageWidth : Nat := 0
  pageHeight : Nat := 0
  pageStride : Nat := 0
  blockMask : Nat := 0
  writeMask : Nat := 0
  deriving Repr, DecidableEq

/-- Modelled from the spec: `compute_page_rect` lives in gs_util, which
is not under src/.  For the claims settled here its result only flows
into recorded page-tracker calls, so it is kept as an uninterpreted
descriptor of its arguments (base block pointer, rectangle, stride in
64-pixel units, pixel-storage mode). -/
structure PageRectArgs where
  baseBlock : Nat
  x : Nat
  y : Nat
  w : Nat
  h : Nat
  stride : Nat
  psm : Nat
  deriving Repr, DecidableEq

/-- An integer bounding box (`ivec4 bb`: x = lo.x, y = lo.y, z = hi.x,
w = hi.y). -/
structure BBox where
  x : Int := 0
  y : Int := 0
  z : Int := 0
  w : Int := 0
  deriving Repr, DecidableEq

/-- One page-tracker or back-end call, in program order. -/
inductive TraceEvent where
  | markFbWrite (r : PageRectM)
  | markFbRead (r : PageRectM)
  | markTextureRead (r : PageRectArgs) (csaMask : Nat)
  | registerClutClobber (r : PageRectArgs) (csaMask : Nat)
  | updatePaletteCache (tex0 : TEX0Reg) (texclut : TEXCLUTReg) (inst : Nat)
  | flushRendering (numPrims numStates numTextures pendingPalettes : Nat)
      (bb : BBox) (tileLog2 : Nat) (reason : FlushReason)
  | flushHostVramCopy (pages : List Nat)
  | flushTransfer
  | transferOverlapBarrier
  | flushCacheUpload
  | flushReadback (pages : List Nat)
  deriving Repr, DecidableEq

/-- A state vector (`StateVector`): blend-mode bitfield, combiner
bitfield, dither matrix words.  Two state vectors compare equal iff all
fields match. -/
structure StateVector where
  blendMode : Nat := 0
  combiner : Nat := 0
  dimx0 : Nat := 0
  dimx1 : Nat := 0
  deriving Repr, DecidableEq

/-- Blend-mode / combiner bit layout constants.  The claims depend only
on injectivity of the encoding, which these distinct offsets provide. -/
def BLEND_MODE_DTHE_BIT : Nat := 1
def BLEND_MODE_ATE_BIT : Nat := 2
def BLEND_MODE_ATE_MODE_OFFSET : Nat := 2
def BLEND_MODE_AFAIL_MODE_OFFSET : Nat := 5
def BLEND_MODE_DATE_BIT : Nat := 2 ^ 7
def BLEND_MODE_DATM_BIT : Nat := 2 ^ 8
def BLEND_MODE_A_MODE_OFFSET : Nat := 9
def BLEND_MODE_B_MODE_OFFSET : Nat := 11
def BLEND_MODE_C_MODE_OFFSET : Nat := 13
def BLEND_MODE_D_MODE_OFFSET : Nat := 15
def BLEND_MODE_ABE_BIT : Nat := 2 ^ 17
def BLEND_MODE_PABE_BIT : Nat := 2 ^ 18
def BLEND_MODE_COLCLAMP_BIT : Nat := 2 ^ 19
def BLEND_MODE_FB_ALPHA_BIT : Nat := 2 ^ 20
def COMBINER_TME_BIT : Nat := 1
def COMBINER_TCC_BIT : Nat := 2
def COMBINER_MODE_OFFSET : Nat := 2
def COMBINER_FOG_BIT : Nat := 2 ^ 4

/-- Per-primitive state bits of the primitive template. -/
def STATE_INDEX_BIT_OFFSET : Nat := 16
def STATE_BIT_Z_TEST : Nat := 0
def STATE_BIT_Z_TEST_GREATER : Nat := 1
def STATE_BIT_Z_WRITE : Nat := 2
def STATE_BIT_OPAQUE : Nat := 3
def STATE_BIT_MULTISAMPLE : Nat := 4
def STATE_BIT_SCANMSK_EVEN : Nat := 5
def STATE_BIT_PERSPECTIVE : Nat := 7
def STATE_BIT_IIP : Nat := 8
def STATE_BIT_FIX : Nat := 9
def STATE_BIT_PARALLELOGRAM : Nat := 10
def STATE_BIT_SPRITE : Nat := 11
def STATE_BIT_LINE : Nat := 12
def STATE_BIT_SNAP_RASTER : Nat := 13
def ALPHA_AFIX_OFFSET : Nat := 0
def ALPHA_AREF_OFFSET : Nat := 8
/-- Blend factor selectors: `BLEND_RGB_DEST = 1` (destination color) and
`BLEND_ALPHA_DEST = 1`. -/
def BLEND_RGB_DEST : Nat := 1
def BLEND_ALPHA_DEST : Nat := 1

/-- A vertex position record (`VertexPosition`): integer subpixel x/y and
Z.  The source stores Z as `float(desc.Z)`; no modelled path computes on
it, so the source integer is stored. -/
structure VertexPos where
  x : Int := 0
  y : Int := 0
  z : Nat := 0
  deriving Repr, DecidableEq

/-- A vertex attribute record (`VertexAttribute`).  `stS`/`stT`/`q` hold
the raw 32-bit float payloads latched from ST/RGBAQ (no modelled path
performs float arithmetic on them), `rgba` the packed color word, `fog`
the fog coefficient, `u`/`v` the 16-bit UVs. -/
structure VertexAttr where
  stS : Nat := 0
  stT : Nat := 0
  q : Nat := 0
  rgba : Nat := 0
  fog : Nat := 0
  u : Nat := 0
  v : Nat := 0
  deriving Repr, DecidableEq

/-- `PrimitiveAttribute`. -/
structure PrimAttr where
  tex : Nat := 0
  tex2 : Nat := 0
  state : Nat := 0
  fbmsk : Nat := 0
  fogcol : Nat := 0
  alpha : Nat := 0
  bb : BBox := {}
  deriving Repr, DecidableEq

/-- A memoized palette upload (`RenderPass::memoized_palettes` entry):
CSA mask, normalized TEX0 + TEXCLUT signature, palette instance.  The
ring is modelled newest-first. -/
structure MemoizedPalette where
  csaMask : Nat
  tex0 : TEX0Reg
  texclut : TEXCLUTReg
  inst : Nat
  deriving Repr, DecidableEq

/-- Per-context register state (`ContextState`), restricted to the
registers the modelled paths read.  `tex1MTBA` is TEX1's MTBA bit
(consulted by `handle_miptbl_gen`, which returns immediately when it is
clear; no modelled scenario sets it). -/
structure CtxState where
  frame : FRAMEReg := {}
  zbuf : ZBUFReg := {}
  test : TESTReg := {}
  scissor : SCISSORReg := {}
  xyoffset : XYOFFSETReg := {}
  alpha : ALPHAReg := {}
  tex0 : TEX0Reg := {}
  fba : Nat := 0
  tex1MTBA : Nat := 0
  deriving Repr, DecidableEq

/-- Capacity constants whose values live in headers outside src/
(`MaxPrimitivesPerFlush`, `MaxTextures`, `MaxStateVectors`,
`CLUTInstances`, `NumMemoizedPalettes`); the model is parametric in
them. -/
structure Limits where
  maxPrims : Nat
  maxTextures : Nat
  maxStateVectors : Nat
  clutInstances : Nat
  numMemoizedPalettes : Nat
  deriving Repr, DecidableEq

/-- A representative concrete choice of the capacity constants, used by
the closed scenario theorems (their outcomes are invariant under any
capacities comfortably above the scenario sizes). -/
def defaultLimits : Limits :=
  { maxPrims := 65536, maxTextures := 1024, maxStateVectors := 1024
    clutInstances := 1024, numMemoizedPalettes := 8 }

/-- The observable interface state. -/
structure GSState where
  -- register file
  prim : PRIMReg := {}
  prmodecontAC : Nat := 1
  ctx0 : CtxState := {}
  ctx1 : CtxState := {}
  dthe : Nat := 0
  dimx0 : Nat := 0
  dimx1 : Nat := 0
  pabe : Nat := 0
  colclamp : Nat := 0
  scanmskMSK : Nat := 0
  rgbaR : Nat := 0
  rgbaG : Nat := 0
  rgbaB : Nat := 0
  rgbaA : Nat := 0
  rgbaQ : Nat := 0
  stS : Nat := 0
  stT : Nat := 0
  internalQ : Nat := 0x3f800000
  uvU : Nat := 0
  uvV : Nat := 0
  fogF : Nat := 0
  fogcol : Nat := 0
  texclut : TEXCLUTReg := {}
  texa : Nat := 0
  cachedCbp0 : Nat := 0
  cachedCbp1 : Nat := 0
  -- vertex queue (front = slot 0)
  vq : List (VertexPos × VertexAttr) := []
  -- state tracker
  dirtyFlags : Nat := DIRTY_ALL
  degenerateDraw : Bool := false
  lastStateVector : StateVector := {}
  lastStateIndex : Nat := 0
  primTemplateTex : Nat := 0
  primTemplateTex2 : Nat := 0
  primTemplateState : Nat := 0
  lastTextureIndex : Nat := 0xffffffff
  -- render-pass accumulator
  rpPrims : List PrimAttr := []
  rpPositions : List (VertexPos × VertexPos × VertexPos) := []
  rpAttrs : List (VertexAttr × VertexAttr × VertexAttr) := []
  rpStateVectors : List StateVector := []
  rpNumTextures : Nat := 0
  rpFrame : FRAMEReg := {}
  rpZbuf : ZBUFReg := {}
  rpFbPageWLog2 : Nat := 0
  rpFbPageHLog2 : Nat := 0
  rpZPageWLog2 : Nat := 0
  rpZPageHLog2 : Nat := 0
  rpBB : BBox := { x := 2147483647, y := 2147483647, z := -2147483648, w := -2147483648 }
  rpColorWriteMask : Nat := 0
  rpZSensitive : Bool := false
  rpZWrite : Bool := false
  rpHasColorFeedback : Bool := false
  rpHasAA1 : Bool := false
  rpHasScanmsk : Bool := false
  rpIsColorFeedback : Bool := false
  rpIsPotentialColorFeedback : Bool := false
  rpIsPotentialDepthFeedback : Bool := false
  rpPendingPaletteUpdates : Nat := 0
  rpMemoizedPalettes : List MemoizedPalette := []
  rpClutInstance : Nat := 0
  rpLatestClutInstance : Nat := 0
  rpLabelKey : Nat := 0
  -- back-end palette instance allocator (spec-modelled)
  nextClutInstance : Nat := 0
  -- transfer engine (only the inactive state is exercised)
  transferActive : Bool := false
  transferUnflushed : Bool := false
  -- host/vram sync page sets
  syncHostVramPages : List Nat := []
  syncVramHostPages : List Nat := []
  -- super-sampling configuration
  samplingRateXLog2 : Nat := 0
  samplingRateYLog2 : Nat := 0
  -- page-tracker / back-end call trace
  trace : List TraceEvent := []
  -- true when execution reached source behavior outside this embedding
  -- (textured draws, active transfers, unmodelled registers)
  modelGap : Bool := false
  deriving Repr, DecidableEq

/-- The context selected by PRIM.CTXT. -/
def GSState.ctx (s : GSState) : CtxState :=
  if s.prim.ctxt == 0 then s.ctx0 else s.ctx1

/-- Emit a page-tracker / back-end call. -/
def emit (s : GSState) (e : TraceEvent) : GSState :=
  { s with trace := s.trace ++ [e] }

/-- Clear dirty bits (`state_tracker.dirty_flags &= ~mask`); dirty flags
always stay within `DIRTY_ALL`. -/
def clearBits (flags mask : Nat) : Nat := flags &&& (DIRTY_ALL ^^^ (mask &&& DIRTY_ALL))

/-- `GSInterface::get_and_clear_dirty_flag` (gs_interface.cpp:539-545). -/
def getAndClearDirty (mask : Nat) (s : GSState) : Bool × GSState :=
  if s.dirtyFlags &&& mask != 0 then
    (true, { s with dirtyFlags := clearBits s.dirtyFlags mask })
  else
    (false, s)

/-- Arithmetic shift right on `Int` (C++ `>>` on a signed int):
floor division by `2^n`. -/
def sarInt (x : Int) (n : Nat) : Int := Int.fdiv x ((2 : Int) ^ n)

/-- Modelled from the spec: `psm_word_write_mask` lives in a header
outside src/.  Per spec §4.1 the write mask is the PSM's word-plane mask:
24-bit formats write the lower 24 bits, PSMT8H the top byte plane,
PSMT4HL/PSMT4HH one nibble plane of the top byte; all full-width formats
write all 32 bits. -/
def psmWordWriteMask (psm : Nat) : Nat :=
  if psm == 1 || psm == 49 then 0xffffff
  else if psm == 27 then 0xff000000
  else if psm == 36 then 0x0f000000
  else if psm == 44 then 0xf0000000
  else 0xffffffff

/-- Modelled from the spec: `get_data_structure(psm)` page geometry
(gs_util, outside src/).  Returns (page_width_log2, page_height_log2):
32/24-bit formats use 64×32 pages, 16-bit 64×64, 8-bit 128×64,
4-bit 128×128. -/
def psmPageLog2 (psm : Nat) : Nat × Nat :=
  if psm == 2 || psm == 10 || psm == 50 || psm == 58 then (6, 6)
  else if psm == 19 || psm == 27 then (7, 6)
  else if psm == 20 || psm == 36 || psm == 44 then (7, 7)
  else (6, 5)

/-- The `coarse_tile_size_log2` computation of
`GSInterface::flush_render_pass` (gs_interface.cpp:96-110).  The binning
cost is a `uint32_t` product in the source, hence the `% 2^32`. -/
def tileSizeLog2 (bb : BBox) (numPrims yLog2 : Nat) : Nat :=
  let tileWidth := (sarInt (bb.z - bb.x) FB_SWIZZLE_WIDTH_LOG2).toNat + 1
  let tileHeight := (sarInt (bb.w - bb.y) FB_SWIZZLE_HEIGHT_LOG2).toNat + 1
  let binningCost := (tileWidth * tileHeight * numPrims) % 2 ^ 32
  let l :=
    if binningCost < 10 * 1000 then 3
    else if binningCost < 10 * 1000 * 1000 then 4
    else if binningCost < 100 * 1000 * 1000 then 5
    else 6
  if yLog2 != 0 && l > 3 then l - 1 else l

/-- The reset value of the render-pass bounding box
(`ivec4(INT32_MAX, INT32_MAX, INT32_MIN, INT32_MIN)`). -/
def emptyBB : BBox :=
  { x := 2147483647, y := 2147483647, z := -2147483648, w := -2147483648 }

/-- `GSInterface::flush_render_pass` (gs_interface.cpp:76-177): emit the
accumulated pass to the back-end when it holds primitives, then reset the
accumulator and set all dirty bits. -/
def flushRenderPassFn (reason : FlushReason) (s : GSState) : GSState :=
  let s :=
    if s.rpPrims.length != 0 then
      let tl := tileSizeLog2 s.rpBB s.rpPrims.length s.samplingRateYLog2
      let s := emit s (.flushRendering s.rpPrims.length s.rpStateVectors.length
        s.rpNumTextures s.rpPendingPaletteUpdates s.rpBB tl reason)
      { s with rpLabelKey := s.rpLabelKey + 1 }
    else s
  { s with
    rpPrims := [], rpPositions := [], rpAttrs := []
    rpStateVectors := [], rpNumTextures := 0
    rpPendingPaletteUpdates := 0
    rpBB := emptyBB
    rpColorWriteMask := 0
    rpZSensitive := false, rpZWrite := false
    rpHasColorFeedback := false, rpHasAA1 := false, rpHasScanmsk := false
    dirtyFlags := DIRTY_ALL }

/-- Phase 1 of `GSInterface::flush` (gs_interface.cpp:181-196): sync
host→VRAM pages; the back-end call is issued only when pages are
pending. -/
def flushPhaseSync (flags : Nat) (s : GSState) : GSState :=
  if flags &&& FLUSH_HOST_VRAM_SYNC_BIT != 0 then
    let pages := s.syncHostVramPages
    let s := { s with syncHostVramPages := [] }
    if pages != [] then emit s (.flushHostVramCopy pages) else s
  else s

/-- Phase 2 of `GSInterface::flush` (gs_interface.cpp:198-211): flush
in-flight copies, or insert only a copy-overlap barrier when nothing
beyond copies is being flushed (a WAW hazard resolved internally). -/
def flushPhaseCopy (flags : Nat) (s : GSState) : GSState :=
  if flags &&& FLUSH_COPY_BIT != 0 then
    if flags &&& (FLUSH_CACHE_BIT ||| FLUSH_FB_BIT ||| FLUSH_WRITE_BACK_BIT) != 0 then
      emit s .flushTransfer
    else
      emit s .transferOverlapBarrier
  else s

/-- Phase 3 of `GSInterface::flush` (gs_interface.cpp:213-219): flush
texture-cache uploads; VRAM may have changed, so palette memoization is
reset. -/
def flushPhaseCache (flags : Nat) (s : GSState) : GSState :=
  if flags &&& FLUSH_CACHE_BIT != 0 then
    { emit s .flushCacheUpload with rpMemoizedPalettes := [] }
  else s

/-- Phase 4 of `GSInterface::flush` (gs_interface.cpp:221-222): flush
the render pass. -/
def flushPhaseFb (flags : Nat) (reason : FlushReason) (s : GSState) : GSState :=
  if flags &&& FLUSH_FB_BIT != 0 then flushRenderPassFn reason s else s

/-- Phase 5 of `GSInterface::flush` (gs_interface.cpp:224-238): flush
write-back (readback) pages. -/
def flushPhaseWb (flags : Nat) (s : GSState) : GSState :=
  if flags &&& FLUSH_WRITE_BACK_BIT != 0 then
    let pages := s.syncVramHostPages
    let s := { s with syncVramHostPages := [] }
    if pages != [] then emit s (.flushReadback pages) else s
  else s

/-- `GSInterface::flush(PageTrackerFlushFlags, FlushReason)`
(gs_interface.cpp:179-239): the flush-lattice callback, running the
phases in the source's fixed order. -/
def interfaceFlush (flags : Nat) (reason : FlushReason) (s : GSState) : GSState :=
  flushPhaseWb flags
    (flushPhaseFb flags reason
      (flushPhaseCache flags
        (flushPhaseCopy flags
          (flushPhaseSync flags s))))

/-- Modelled from the spec: `PageTracker::flush_render_pass(reason)`
(page_tracker.cpp is outside src/) is an "unconditional flush request to
the callback" (§4.2); the render-pass phase of the callback is the
render-pass flush. -/
def trackerFlushRenderPass (reason : FlushReason) (s : GSState) : GSState :=
  interfaceFlush FLUSH_FB_BIT reason s

/-- Modelled from the spec: `PageTracker::mark_fb_write` /
`mark_fb_read` record the rectangle; no hazard flush is raised because
the modelled scenarios never hold pending copies or foreign writes
(§4.2). -/
def trackerMarkFbWrite (r : PageRectM) (s : GSState) : GSState :=
  emit s (.markFbWrite r)

def trackerMarkFbRead (r : PageRectM) (s : GSState) : GSState :=
  emit s (.markFbRead r)

/-- `GSInterface::flush_pending_transfer` (gs_interface.cpp:1903-1948).
Only the no-unflushed-payload path is exercised by the modelled
scenarios; an active transfer with unflushed payload leaves the
embedding's domain. -/
def flushPendingTransfer (keepAlive : Bool) (s : GSState) : GSState :=
  let s :=
    if s.transferActive && s.transferUnflushed then
      { s with modelGap := true, transferUnflushed := false }
    else s
  if !keepAlive then
    { s with transferActive := false, transferUnflushed := false }
  else s

/-- `GSInterface::compute_fb_rect` (gs_interface.cpp:1244-1260). -/
def computeFbRect (s : GSState) (bb : BBox) : PageRectM :=
  let bbpx := sarInt bb.x s.rpFbPageWLog2
  let bbpy := sarInt bb.y s.rpFbPageHLog2
  let bbpz := sarInt bb.z s.rpFbPageWLog2
  let bbpw := sarInt bb.w s.rpFbPageHLog2
  { basePage := ((s.rpFrame.fbp : Int) + bbpx + bbpy * (s.rpFrame.fbw : Int)).toNat
    pageWidth := (bbpz - bbpx + 1).toNat
    pageHeight := (bbpw - bbpy + 1).toNat
    pageStride := s.rpFrame.fbw
    blockMask := 0xffffffff
    writeMask := psmWordWriteMask s.rpFrame.psm }

/-- `GSInterface::compute_z_rect` (gs_interface.cpp:1262-1278). -/
def computeZRect (s : GSState) (bb : BBox) : PageRectM :=
  let bbpx := sarInt bb.x s.rpZPageWLog2
  let bbpy := sarInt bb.y s.rpZPageHLog2
  let bbpz := sarInt bb.z s.rpZPageWLog2
  let bbpw := sarInt bb.w s.rpZPageHLog2
  { basePage := ((s.rpZbuf.zbp : Int) + bbpx + bbpy * (s.rpFrame.fbw : Int)).toNat
    pageWidth := (bbpz - bbpx + 1).toNat
    pageHeight := (bbpw - bbpy + 1).toNat
    pageStride := s.rpFrame.fbw
    blockMask := 0xffffffff
    writeMask := psmWordWriteMask s.rpZbuf.psm }

/-- `GSInterface::draw_is_degenerate` (gs_interface.cpp:1280-1316). -/
def drawIsDegenerate (s : GSState) : Bool × GSState :=
  match getAndClearDirty DIRTY_DEGENERATE s with
  | (false, s) => (s.degenerateDraw, s)
  | (true, s) =>
    let ctx := s.ctx
    if ctx.scissor.scax0 > ctx.scissor.scax1 || ctx.scissor.scay0 > ctx.scissor.scay1 then
      (true, { s with degenerateDraw := true })
    else if ctx.test.zte == ZTE_ENABLED && ctx.test.ztst == ZTST_NEVER then
      (true, { s with degenerateDraw := true })
    else if ctx.test.ate != 0 && ctx.test.atst == ATST_NEVER && ctx.test.afail == AFAIL_KEEP then
      (true, { s with degenerateDraw := true })
    else
      let readOnlyDepth := ctx.zbuf.zmsk != 0 || ctx.test.zte == ZTE_UNDEFINED
      let readOnlyColor := ctx.frame.fbmsk == 0xffffffff
      let d := readOnlyColor && readOnlyDepth
      (d, { s with degenerateDraw := d })

/-- `GSInterface::state_is_z_sensitive` (gs_interface.cpp:1318-1336). -/
def stateIsZSensitive (s : GSState) : Bool :=
  let ctx := s.ctx
  ctx.test.zte == ZTE_ENABLED && (ctx.test.hasZTest || ctx.zbuf.zmsk == 0)

/-- `GSInterface::mark_texture_state_dirty` (gs_interface.cpp:792-796). -/
def markTextureStateDirty (s : GSState) : GSState :=
  { s with lastTextureIndex := 0xffffffff
           dirtyFlags := s.dirtyFlags ||| (DIRTY_PRIM_TEMPLATE ||| DIRTY_TEX) }

/-- `GSInterface::update_color_feedback_state` (gs_interface.cpp:1338-1423).
The untextured early-out is the only branch of the recompute path the
claims exercise; a textured recompute leaves the embedding's domain. -/
def updateColorFeedbackState (s : GSState) : GSState :=
  match getAndClearDirty DIRTY_FEEDBACK s with
  | (false, s) =>
    if s.rpIsColorFeedback then
      { s with dirtyFlags := s.dirtyFlags ||| (DIRTY_PRIM_TEMPLATE ||| DIRTY_TEX) }
    else s
  | (true, s) =>
    let s := { s with rpIsColorFeedback := false
                      rpIsPotentialColorFeedback := false
                      rpIsPotentialDepthFeedback := false }
    if s.prim.tme == 0 then s else { s with modelGap := true }

/-- `GSInterface::find_or_place_unique_state_vector`
(gs_interface.cpp:613-651).  The source's hash-map lookup keyed on the
hash of the four fields is modelled as a value lookup (the fields are the
whole key; the model assumes no hash collisions). -/
def findOrPlaceUniqueStateVector (sv : StateVector) (s : GSState) : Nat × GSState :=
  if s.rpStateVectors.length != 0 && sv == s.lastStateVector then
    (s.lastStateIndex, s)
  else
    match s.rpStateVectors.indexOf? sv with
    | some idx =>
      (idx, { s with lastStateVector := sv, lastStateIndex := idx })
    | none =>
      let idx := s.rpStateVectors.length
      (idx, { s with rpStateVectors := s.rpStateVectors ++ [sv]
                     lastStateVector := sv, lastStateIndex := idx })

/-- `GSInterface::drawing_kick_update_state_vector`
(gs_interface.cpp:653-706). -/
def drawingKickUpdateStateVector (s : GSState) : Nat × GSState :=
  match getAndClearDirty DIRTY_STATE s with
  | (false, s) => (s.lastStateIndex, s)
  | (true, s) =>
    let ctx := s.ctx
    let blend := if s.dthe != 0 then BLEND_MODE_DTHE_BIT else 0
    let dimx0 := if s.dthe != 0 then s.dimx0 else 0
    let dimx1 := if s.dthe != 0 then s.dimx1 else 0
    let blend :=
      if ctx.test.ate != 0 && ctx.test.atst != 1 then
        blend ||| BLEND_MODE_ATE_BIT ||| (ctx.test.atst <<< BLEND_MODE_ATE_MODE_OFFSET)
              ||| (ctx.test.afail <<< BLEND_MODE_AFAIL_MODE_OFFSET)
      else blend
    let blend := blend ||| (if ctx.test.date != 0 then BLEND_MODE_DATE_BIT else 0)
    let blend := blend ||| (if ctx.test.datm != 0 then BLEND_MODE_DATM_BIT else 0)
    let blend :=
      if s.prim.abe != 0 || s.prim.aa1 != 0 then
        blend ||| (ctx.alpha.a <<< BLEND_MODE_A_MODE_OFFSET)
              ||| (ctx.alpha.b <<< BLEND_MODE_B_MODE_OFFSET)
              ||| (ctx.alpha.c <<< BLEND_MODE_C_MODE_OFFSET)
              ||| (ctx.alpha.d <<< BLEND_MODE_D_MODE_OFFSET)
      else blend
    let blend := if s.prim.abe != 0 then blend ||| BLEND_MODE_ABE_BIT else blend
    let blend := blend ||| (if s.pabe != 0 then BLEND_MODE_PABE_BIT else 0)
    let blend := blend ||| (if s.colclamp != 0 then BLEND_MODE_COLCLAMP_BIT else 0)
    let blend := blend ||| (if ctx.fba != 0 then BLEND_MODE_FB_ALPHA_BIT else 0)
    let comb :=
      if s.prim.tme != 0 then
        COMBINER_TME_BIT ||| (if ctx.tex0.tcc != 0 then COMBINER_TCC_BIT else 0)
          ||| (ctx.tex0.tfx <<< COMBINER_MODE_OFFSET)
      else 0
    let comb := comb ||| (if s.prim.fge != 0 then COMBINER_FOG_BIT else 0)
    findOrPlaceUniqueStateVector
      { blendMode := blend, combiner := comb, dimx0 := dimx0, dimx1 := dimx1 } s

/-- `GSInterface::check_frame_buffer_state` (gs_interface.cpp:567-611).
`fb_delta` compares `frame.words[0]`, i.e. FBP/FBW/PSM but not FBMSK. -/
def checkFrameBufferState (s : GSState) : GSState :=
  match getAndClearDirty DIRTY_FB s with
  | (false, s) => s
  | (true, s) =>
    let ctx := s.ctx
    let fbDelta := s.rpFrame.fbp != ctx.frame.fbp || s.rpFrame.fbw != ctx.frame.fbw
                   || s.rpFrame.psm != ctx.frame.psm
    let zDelta := s.rpZbuf.psm != ctx.zbuf.psm || s.rpZbuf.zbp != ctx.zbuf.zbp
    let s :=
      if s.rpPrims.length != 0 && (fbDelta || (s.rpZSensitive && zDelta)) then
        trackerFlushRenderPass .fbPointer (flushPendingTransfer true s)
      else s
    let s :=
      if fbDelta then
        let wh := psmPageLog2 ctx.frame.psm
        { s with rpFbPageWLog2 := wh.1, rpFbPageHLog2 := wh.2, rpFrame := ctx.frame }
      else s
    if zDelta then
      let wh := psmPageLog2 ctx.zbuf.psm
      { s with rpZPageWLog2 := wh.1, rpZPageHLog2 := wh.2, rpZbuf := ctx.zbuf }
    else s

/-- `GSInterface::drawing_kick_update_state` (gs_interface.cpp:1135-1242),
restricted to untextured primitives (`drawing_kick_update_texture` on a
textured primitive leaves the embedding's domain). -/
def drawingKickUpdateState (s : GSState) : GSState :=
  match getAndClearDirty DIRTY_PRIM_TEMPLATE s with
  | (false, s) => s
  | (true, s) =>
    let ctx := s.ctx
    let s := if s.prim.tme != 0 then { s with modelGap := true } else s
    let texWord := 0
    let tex2Word := 0
    let r := drawingKickUpdateStateVector s
    let stateIdx := r.1
    let s := r.2
    let st := stateIdx <<< STATE_INDEX_BIT_OFFSET
    let st :=
      if ctx.test.zte == ZTE_ENABLED then
        let st :=
          if ctx.test.hasZTest then
            st ||| (1 <<< STATE_BIT_Z_TEST)
               ||| (if ctx.test.ztst == ZTST_GREATER then 1 <<< STATE_BIT_Z_TEST_GREATER else 0)
          else st
        if ctx.zbuf.zmsk == 0 then st ||| (1 <<< STATE_BIT_Z_WRITE) else st
      else st
    let needsPrev :=
      (s.prim.abe != 0 || s.prim.aa1 != 0) &&
        (ctx.alpha.a == BLEND_RGB_DEST || ctx.alpha.b == BLEND_RGB_DEST ||
         ctx.alpha.c == BLEND_ALPHA_DEST || ctx.alpha.d == BLEND_RGB_DEST)
    let needsPrev := needsPrev ||
      ((ctx.test.ate != 0 && ctx.test.atst != ATST_ALWAYS) || ctx.test.date != 0
        || ctx.frame.fbmsk != 0)
    let needsPrev := needsPrev || s.rpIsColorFeedback
    let st := if !needsPrev then st ||| (1 <<< STATE_BIT_OPAQUE) else st
    let stS :=
      if s.prim.aa1 != 0 then
        (st ||| (1 <<< STATE_BIT_MULTISAMPLE), { s with rpHasAA1 := true })
      else (st, s)
    let st := stS.1
    let s := stS.2
    let stS :=
      if scanmskHasMask s.scanmskMSK then
        (st ||| (1 <<< (STATE_BIT_SCANMSK_EVEN + s.scanmskMSK - MSK_SKIP_EVEN)),
         { s with rpHasScanmsk := true })
      else (st, s)
    let st := stS.1
    let s := stS.2
    let st := if s.prim.fst == 0 then st ||| (1 <<< STATE_BIT_PERSPECTIVE) else st
    let st := if s.prim.iip != 0 then st ||| (1 <<< STATE_BIT_IIP) else st
    let st := if s.prim.fix != 0 then st ||| (1 <<< STATE_BIT_FIX) else st
    { s with primTemplateTex := texWord, primTemplateTex2 := tex2Word
             primTemplateState := st }

/-- Clear one bit of a per-primitive state word (`state &= ~(1u << bit)`). -/
def natClearBit (x : Nat) (bit : Nat) : Nat := x ^^^ (x &&& (1 <<< bit))

/-- Shared body of `vertex_kick_xyz` / `vertex_kick_xyzf`
(gs_interface.cpp:479-537): shift the 3-deep queue when full, then latch
position and current attributes.  `fogOverride` is `float(xyzf.F)` for
the XYZF kick; the XYZ kick latches `registers.fog.desc.FOG`. -/
def vertexKick (p : VertexPos) (fogOverride : Option Nat) (s : GSState) : GSState :=
  let q := if s.vq.length == 3 then s.vq.drop 1 else s.vq
  let attr : VertexAttr :=
    { stS := s.stS, stT := s.stT, q := s.rgbaQ
      rgba := s.rgbaR ||| (s.rgbaG <<< 8) ||| (s.rgbaB <<< 16) ||| (s.rgbaA <<< 24)
      fog := fogOverride.getD s.fogF
      u := s.uvU, v := s.uvV }
  { s with vq := q ++ [(p, attr)] }

/-- XYZ payload: X 0..15, Y 16..31, Z 32..63. -/
def vertexKickXYZ (payload : Nat) (s : GSState) : GSState :=
  vertexKick
    { x := ((payload &&& 0xffff : Nat) : Int)
      y := (((payload >>> 16) &&& 0xffff : Nat) : Int)
      z := payload >>> 32 } none s

/-- XYZF payload: X 0..15, Y 16..31, Z 32..55, F 56..63. -/
def vertexKickXYZF (payload : Nat) (s : GSState) : GSState :=
  vertexKick
    { x := ((payload &&& 0xffff : Nat) : Int)
      y := (((payload >>> 16) &&& 0xffff : Nat) : Int)
      z := (payload >>> 32) &&& 0xffffff }
    (some (payload >>> 56)) s

/-- Componentwise min/max of subpixel positions. -/
def pmin (a b : Int × Int) : Int × Int := (min a.1 b.1, min a.2 b.2)
def pmax (a b : Int × Int) : Int × Int := (max a.1 b.1, max a.2 b.2)

/-- `GSInterface::drawing_kick_append` (gs_interface.cpp:1538-1762),
instantiated at the template arity: `quad` and `numV` are the `quad` /
`num_vertices` template parameters.  Attribute slots beyond `numV` are
uninitialized stack data in the source; the model stores the zero
attribute there (no claim inspects them). -/
def drawingKickAppend (quad : Bool) (numV : Nat) (s : GSState) : GSState :=
  let ctx := s.ctx
  let offX : Int := ctx.xyoffset.ofx
  let offY : Int := ctx.xyoffset.ofy
  let cnt := s.vq.length
  let v0 := (s.vq.getD (cnt - 1) ({}, {}))
  let pa :=
    if numV == 1 then
      let half : Int := (2 : Int) ^ (SUBPIXEL_BITS - 1)
      let one : Int := (2 : Int) ^ SUBPIXEL_BITS
      let p0 := { v0.1 with x := v0.1.x - (offX + half), y := v0.1.y - (offY + half) }
      let p1 := { p0 with x := p0.x + one, y := p0.y + one }
      ((p0, p1, ({} : VertexPos)), (v0.2, ({} : VertexAttr), ({} : VertexAttr)))
    else if numV == 2 then
      let v1 := s.vq.getD (cnt - 2) ({}, {})
      let p0 := { v0.1 with x := v0.1.x - offX, y := v0.1.y - offY }
      let p1 := { v1.1 with x := v1.1.x - offX, y := v1.1.y - offY }
      ((p0, p1, ({} : VertexPos)), (v0.2, v1.2, ({} : VertexAttr)))
    else
      let va := s.vq.getD 2 ({}, {})
      let vb := s.vq.getD 1 ({}, {})
      let vc := s.vq.getD 0 ({}, {})
      let p0 := { va.1 with x := va.1.x - offX, y := va.1.y - offY }
      let p1 := { vb.1 with x := vb.1.x - offX, y := vb.1.y - offY }
      let p2 := { vc.1 with x := vc.1.x - offX, y := vc.1.y - offY }
      ((p0, p1, p2), (va.2, vb.2, vc.2))
  let pos := pa.1
  let attr := pa.2
  let lo := pmin (pos.1.x, pos.1.y) (pos.2.1.x, pos.2.1.y)
  let hi := pmax (pos.1.x, pos.1.y) (pos.2.1.x, pos.2.1.y)
  let isLine := !quad && numV == 2
  let lo := if !quad && !isLine then pmin (pos.2.2.x, pos.2.2.y) lo else lo
  let hi := if !quad && !isLine then pmax (pos.2.2.x, pos.2.2.y) hi else hi
  let hi := (hi.1 - 1, hi.2 - 1)
  let lo :=
    if quad || s.prim.aa1 == 0 then
      let t := ((2 : Int) ^ (SUBPIXEL_BITS - s.samplingRateYLog2)) - 1
      (lo.1 + t, lo.2 + t)
    else lo
  let lo := (sarInt lo.1 SUBPIXEL_BITS, sarInt lo.2 SUBPIXEL_BITS)
  let hi := (sarInt hi.1 SUBPIXEL_BITS, sarInt hi.2 SUBPIXEL_BITS)
  let lo := if isLine then (lo.1 - 1, lo.2 - 1) else lo
  let hi := if isLine then (hi.1 + 1, hi.2 + 1) else hi
  let lo := pmax lo ((ctx.scissor.scax0 : Int), (ctx.scissor.scay0 : Int))
  let hi := pmin hi ((ctx.scissor.scax1 : Int), (ctx.scissor.scay1 : Int))
  let hi := (min hi.1 ((ctx.frame.fbw * BUFFER_WIDTH_SCALE : Nat) - 1 : Int), hi.2)
  let bb : BBox := { x := lo.1, y := lo.2, z := hi.1, w := hi.2 }
  if bb.z < bb.x || bb.w < bb.y then
    s -- degenerate BB: clipped away completely
  else
    let s := updateColorFeedbackState s
    -- feedback-mode deduction only runs for color-feedback passes, which
    -- are outside the modelled domain
    let s := if s.rpIsColorFeedback then { s with modelGap := true } else s
    let s :=
      if s.prim.tme != 0 && s.transferActive && s.transferUnflushed then
        flushPendingTransfer true s
      else s
    let s := checkFrameBufferState s
    let s :=
      if s.prim.tme != 0 && s.dirtyFlags &&& DIRTY_TEX == 0 then
        { s with modelGap := true }
      else s
    let s := drawingKickUpdateState s
    let st := s.primTemplateState
    let st :=
      if quad then
        natClearBit (st ||| (1 <<< STATE_BIT_PARALLELOGRAM) ||| (1 <<< STATE_BIT_SPRITE)
          ||| (1 <<< STATE_BIT_SNAP_RASTER)) STATE_BIT_MULTISAMPLE
      else if isLine then
        let st := st ||| (1 <<< STATE_BIT_PARALLELOGRAM) ||| (1 <<< STATE_BIT_LINE)
        if st &&& (1 <<< STATE_BIT_MULTISAMPLE) != 0 then
          natClearBit st STATE_BIT_Z_WRITE
        else st
      else st
    let st :=
      if numV == 1 then
        st ||| (1 <<< STATE_BIT_FIX) ||| (1 <<< STATE_BIT_SNAP_RASTER)
      else st
    let primAttr : PrimAttr :=
      { tex := s.primTemplateTex, tex2 := s.primTemplateTex2, state := st
        fbmsk := ctx.frame.fbmsk
        fogcol := s.fogcol &&& 0xffffffff
        alpha := (ctx.alpha.fix <<< ALPHA_AFIX_OFFSET) ||| (ctx.test.aref <<< ALPHA_AREF_OFFSET)
        bb := bb }
    let isZSensitive := stateIsZSensitive s
    let es :=
      if !s.rpZSensitive && isZSensitive then
        ({ s with rpZSensitive := true }, true)
      else (s, false)
    let s := es.1
    let expands := es.2
    let es :=
      if isZSensitive && ctx.zbuf.zmsk == 0 && !s.rpZWrite then
        ({ s with rpZWrite := true, dirtyFlags := s.dirtyFlags ||| DIRTY_FEEDBACK }, true)
      else (s, expands)
    let s := es.1
    let expands := es.2
    let writeMask := 0xffffffff ^^^ ctx.frame.fbmsk
    let es :=
      if writeMask &&& s.rpColorWriteMask != writeMask then
        ({ s with rpColorWriteMask := s.rpColorWriteMask ||| writeMask }, true)
      else (s, expands)
    let s := es.1
    let expands := es.2
    let es :=
      if bb.x < s.rpBB.x then ({ s with rpBB := { s.rpBB with x := bb.x } }, true)
      else (s, expands)
    let s := es.1
    let expands := es.2
    let es :=
      if bb.y < s.rpBB.y then ({ s with rpBB := { s.rpBB with y := bb.y } }, true)
      else (s, expands)
    let s := es.1
    let expands := es.2
    let es :=
      if bb.z > s.rpBB.z then ({ s with rpBB := { s.rpBB with z := bb.z } }, true)
      else (s, expands)
    let s := es.1
    let expands := es.2
    let es :=
      if bb.w > s.rpBB.w then ({ s with rpBB := { s.rpBB with w := bb.w } }, true)
      else (s, expands)
    let s := es.1
    let expands := es.2
    let s :=
      if expands then
        let fbRect := computeFbRect s s.rpBB
        let fbRect := { fbRect with writeMask := fbRect.writeMask &&& s.rpColorWriteMask }
        let s := trackerMarkFbWrite fbRect s
        if s.rpZSensitive then
          let zRect := computeZRect s s.rpBB
          if s.rpZWrite then trackerMarkFbWrite zRect s else trackerMarkFbRead zRect s
        else s
      else s
    { s with rpPrims := s.rpPrims ++ [primAttr]
             rpPositions := s.rpPositions ++ [pos]
             rpAttrs := s.rpAttrs ++ [attr]
             dirtyFlags := 0 }

/-- `GSInterface::drawing_kick_maintain_queue` (gs_interface.cpp:1764-1783). -/
def drawingKickMaintainQueue (listPrim fanPrim : Bool) (s : GSState) : GSState :=
  if fanPrim then
    { s with vq := [s.vq.getD 0 ({}, {}), s.vq.getD 2 ({}, {})] }
  else if listPrim then
    { s with vq := [] }
  else s

/-- `GSInterface::drawing_kick_primitive` (gs_interface.cpp:1785-1801). -/
def drawingKickPrimitive (listPrim fanPrim quad : Bool) (numV : Nat)
    (adc : Bool) (s : GSState) : GSState :=
  if s.vq.length < numV then s
  else
    let s :=
      if !adc then
        match drawIsDegenerate s with
        | (false, s) => drawingKickAppend quad numV s
        | (true, s) => s
      else s
    drawingKickMaintainQueue listPrim fanPrim s

/-- `GSInterface::post_draw_kick_handler` (gs_interface.cpp:1856-1867). -/
def postDrawKickHandler (L : Limits) (s : GSState) : GSState :=
  if s.rpPendingPaletteUpdates ≥ L.clutInstances
      || s.rpPrims.length ≥ L.maxPrims
      || s.rpNumTextures ≥ L.maxTextures
      || s.rpStateVectors.length ≥ L.maxStateVectors then
    trackerFlushRenderPass .overflow (flushPendingTransfer true s)
  else s

/-- The primitive dispatch of `GSInterface::drawing_kick`
(gs_interface.cpp:1809-1854): dispatch on the PRIM primitive type (the
source memoizes the dispatch in `draw_handler`, recomputed on every PRIM
change, which is behaviorally the same as dispatching on the current
PRIM field).  Only the subsequent post-draw-kick handler consults the
capacity constants. -/
def drawingKickBody (adc : Bool) (s : GSState) : GSState :=
  if s.prim.prim == 0 then drawingKickPrimitive true false true 1 adc s
  else if s.prim.prim == 1 then drawingKickPrimitive true false false 2 adc s
  else if s.prim.prim == 2 then drawingKickPrimitive false false false 2 adc s
  else if s.prim.prim == 3 then drawingKickPrimitive true false false 3 adc s
  else if s.prim.prim == 4 then drawingKickPrimitive false false false 3 adc s
  else if s.prim.prim == 5 then drawingKickPrimitive false true false 3 adc s
  else if s.prim.prim == 6 then drawingKickPrimitive true false true 2 adc s
  else { s with vq := [] } -- drawing_kick_invalid

/-- `GSInterface::drawing_kick`: the dispatched draw, then the
post-draw-kick handler. -/
def drawingKick (L : Limits) (adc : Bool) (s : GSState) : GSState :=
  postDrawKickHandler L (drawingKickBody adc s)

/-! ## Palette (CLUT) pipeline -/

/-- The ring scan of `handle_clut_upload` (gs_interface.cpp:376-407),
newest entry first: stop (miss) at the first memoized upload whose CSA
mask holds a bit outside the new upload's mask; on an exact
(csa mask, TEXCLUT, normalized TEX0) match return its instance and the
ring with the entry removed (the caller re-inserts it at the newest
slot, which is the source's move-to-end). -/
def scanMemoizedRing (csaMask : Nat) (tex0n : TEX0Reg) (tclut : TEXCLUTReg) :
    List MemoizedPalette → Option (Nat × List MemoizedPalette)
  | [] => none
  | m :: rest =>
    if m.csaMask &&& (0xffffffff ^^^ csaMask) != 0 then none
    else if m.csaMask == csaMask && m.texclut == tclut && m.tex0 == tex0n then
      some (m.inst, rest)
    else
      match scanMemoizedRing csaMask tex0n tclut rest with
      | some r => some (r.1, m :: r.2)
      | none => none

/-- The palette dimensions and base CSA mask chosen by
`handle_clut_upload` (gs_interface.cpp:296-336): 8-bit palettes read all
16 sub-banks, 4-bit palettes one; 32-bit palette colors read the upper
bank as well. -/
def clutCsaMask (desc : TEX0Reg) : Nat :=
  let is8bit := desc.psm == PSMT8 || desc.psm == PSMT8H
  let csa0 := if is8bit then 0xffff else 1 <<< desc.csa
  if desc.cpsm == PSMCT32 then csa0 ||| (csa0 <<< 16) else csa0

/-- The upload-normalized TEX0 of `handle_clut_upload`
(gs_interface.cpp:361-372): zero the fields that do not affect the
upload; CSA is ignored for 256-color palettes. -/
def clutNormalizedTex0 (desc : TEX0Reg) : TEX0Reg :=
  { desc with tbp0 := 0, tfx := 0, tw := 0, th := 0, tcc := 0, tbw := 0, cld := 0
              csa := if desc.psm == PSMT8 || desc.psm == PSMT8H then 0 else desc.csa }

/-- The CLUT source rectangle arguments of `handle_clut_upload`
(gs_interface.cpp:338-344). -/
def clutRectArgs (desc : TEX0Reg) (tclut : TEXCLUTReg) : PageRectArgs :=
  let is8bit := desc.psm == PSMT8 || desc.psm == PSMT8H
  let dims :=
    if is8bit then
      if desc.csm != CSM_LAYOUT_RECT then (256, 1) else (16, 16)
    else
      if desc.csm != CSM_LAYOUT_RECT then (16, 1) else (8, 4)
  { baseBlock := desc.cbp
    x := if desc.csm == CSM_LAYOUT_LINE then tclut.cou * COU_SCALE else 0
    y := if desc.csm == CSM_LAYOUT_LINE then tclut.cov else 0
    w := dims.1, h := dims.2
    stride := tclut.cbw, psm := desc.cpsm }

/-- The CLD switch of `handle_clut_upload` (gs_interface.cpp:257-276):
whether the write loads the CLUT, given the cached CBP pair. -/
def clutLoad (desc : TEX0Reg) (c0 c1 : Nat) : Bool :=
  if desc.cld == CLD_LOAD then true
  else if desc.cld == CLD_LOAD_WRITE_CBP0 then true
  else if desc.cld == CLD_LOAD_WRITE_CBP1 then true
  else if desc.cld == CLD_COMPARE_LOAD_CBP0 then c0 != desc.cbp
  else if desc.cld == CLD_COMPARE_LOAD_CBP1 then c1 != desc.cbp
  else false

/-- The cached-CBP updates of the same switch. -/
def clutUpdateCbp (desc : TEX0Reg) (s : GSState) : GSState :=
  if desc.cld == CLD_LOAD_WRITE_CBP0 || desc.cld == CLD_COMPARE_LOAD_CBP0 then
    { s with cachedCbp0 := desc.cbp }
  else if desc.cld == CLD_LOAD_WRITE_CBP1 || desc.cld == CLD_COMPARE_LOAD_CBP1 then
    { s with cachedCbp1 := desc.cbp }
  else s

/-- The memoization-hit path of `handle_clut_upload`
(gs_interface.cpp:384-406): reuse the memoized instance (marking texture
state dirty when it differs from the current one) and move the entry to
the newest slot. -/
def clutUploadHit (desc : TEX0Reg) (tclut : TEXCLUTReg) (inst : Nat)
    (rest : List MemoizedPalette) (s : GSState) : GSState :=
  let s := if inst != s.rpClutInstance then markTextureStateDirty s else s
  { s with rpClutInstance := inst
           rpMemoizedPalettes :=
             { csaMask := clutCsaMask desc, tex0 := clutNormalizedTex0 desc
               texclut := tclut, inst := inst } :: rest }

/-- The memoization-miss path of `handle_clut_upload`
(gs_interface.cpp:409-431): allocate a fresh palette instance from the
back-end, append it to the ring (evicting the oldest at capacity), and
flush the render pass with reason Overflow when pending palette updates
reach the CLUT-instance capacity. -/
def clutUploadMiss (L : Limits) (desc : TEX0Reg) (tclut : TEXCLUTReg)
    (s : GSState) : GSState :=
  let inst := s.nextClutInstance
  let s := emit s (.updatePaletteCache (clutNormalizedTex0 desc) tclut inst)
  let s := { s with nextClutInstance := inst + 1
                    rpClutInstance := inst
                    rpLatestClutInstance := inst
                    rpPendingPaletteUpdates := s.rpPendingPaletteUpdates + 1 }
  let s := markTextureStateDirty s
  let ring := s.rpMemoizedPalettes
  let ring := if ring.length == L.numMemoizedPalettes then ring.dropLast else ring
  let s := { s with rpMemoizedPalettes :=
    { csaMask := clutCsaMask desc, tex0 := clutNormalizedTex0 desc
      texclut := tclut, inst := inst } :: ring }
  if s.rpPendingPaletteUpdates ≥ L.clutInstances then
    trackerFlushRenderPass .overflow s
  else s

/-- The loading arm of `handle_clut_upload` (gs_interface.cpp:278-431):
flush a live partial transfer, mark the CLUT page rectangle read and
register the CLUT clobber with the tracker, then consult the
memoization ring. -/
def clutUploadLoad (L : Limits) (desc : TEX0Reg) (s : GSState) : GSState :=
  let s :=
    if s.transferActive && s.transferUnflushed then flushPendingTransfer true s
    else s
  let s := emit s (.markTextureRead (clutRectArgs desc s.texclut) (clutCsaMask desc))
  let s := emit s (.registerClutClobber (clutRectArgs desc s.texclut) (clutCsaMask desc))
  match scanMemoizedRing (clutCsaMask desc) (clutNormalizedTex0 desc) s.texclut
      s.rpMemoizedPalettes with
  | some r => clutUploadHit desc s.texclut r.1 r.2 s
  | none => clutUploadMiss L desc s.texclut s

/-- `GSInterface::handle_clut_upload` (gs_interface.cpp:251-432).
`renderer.update_palette_cache` (back-end, outside src/) is modelled as
allocating the next instance id and is recorded in the trace. -/
def handleClutUpload (L : Limits) (ctxIndex : Nat) (s : GSState) : GSState :=
  let desc := (if ctxIndex == 0 then s.ctx0 else s.ctx1).tex0
  let load := clutLoad desc s.cachedCbp0 s.cachedCbp1
  let s := clutUpdateCbp desc s
  if !load then s else clutUploadLoad L desc s

/-- `GSInterface::handle_miptbl_gen` (gs_interface.cpp:439-477): returns
immediately unless TEX1.MTBA is set; the MTBA path touches MIPTBP
registers outside the modelled domain. -/
def handleMiptblGen (ctxIndex : Nat) (s : GSState) : GSState :=
  let ctx := if ctxIndex == 0 then s.ctx0 else s.ctx1
  if ctx.tex1MTBA == 0 then s else { s with modelGap := true }

/-! ## A+D register handlers and dispatch -/

/-- `update_internal_register` (gs_interface.cpp:2558-2566), specialised
per register: OR in the dirty flags only when the stored value changes. -/
def setDirtyIf (changed : Bool) (flags : Nat) (s : GSState) : GSState :=
  if changed then { s with dirtyFlags := s.dirtyFlags ||| flags } else s

/-- `GSInterface::a_d_PRIM` (gs_interface.cpp:2227-2269). -/
def adPRIM (payload : Nat) (s : GSState) : GSState :=
  let p := decodePRIM payload
  let s :=
    if s.prmodecontAC != 0 then
      let s :=
        if s.prim.ctxt != p.ctxt then
          { s with dirtyFlags := s.dirtyFlags |||
              (DIRTY_DEGENERATE ||| DIRTY_PRIM_TEMPLATE ||| DIRTY_TEX |||
               DIRTY_FB ||| DIRTY_FEEDBACK) }
        else s
      let s := setDirtyIf (s.prim != p)
        (DIRTY_FEEDBACK ||| DIRTY_PRIM_TEMPLATE ||| DIRTY_TEX ||| DIRTY_STATE) s
      let s := { s with prim := p }
      if s.prim.tme == 0 then { s with dirtyFlags := clearBits s.dirtyFlags DIRTY_TEX }
      else s
    else
      { s with prim := { s.prim with prim := p.prim } }
  -- update_draw_handler on a PRIM delta is subsumed by dispatching
  -- drawing_kick on the current PRIM field
  { s with vq := [], internalQ := 0x3f800000 }

/-- `GSInterface::a_d_PRMODE` (gs_interface.cpp:2391-2418). -/
def adPRMODE (payload : Nat) (s : GSState) : GSState :=
  if s.prmodecontAC == 0 then
    let p := { decodePRIM payload with prim := s.prim.prim }
    let s :=
      if s.prim.ctxt != p.ctxt then
        { s with dirtyFlags := s.dirtyFlags |||
            (DIRTY_DEGENERATE ||| DIRTY_PRIM_TEMPLATE ||| DIRTY_TEX |||
             DIRTY_FB ||| DIRTY_FEEDBACK) }
      else s
    let s := setDirtyIf (s.prim != p)
      (DIRTY_FEEDBACK ||| DIRTY_PRIM_TEMPLATE ||| DIRTY_TEX ||| DIRTY_STATE) s
    let s := { s with prim := p }
    if s.prim.tme == 0 then { s with dirtyFlags := clearBits s.dirtyFlags DIRTY_TEX }
    else s
  else s

def adPRMODECONT (payload : Nat) (s : GSState) : GSState :=
  { s with prmodecontAC := payload &&& 1 }

/-- RGBAQ layout: R 0..7, G 8..15, B 16..23, A 24..31, Q 32..63. -/
def adRGBAQ (payload : Nat) (s : GSState) : GSState :=
  { s with rgbaR := payload &&& 0xff, rgbaG := (payload >>> 8) &&& 0xff
           rgbaB := (payload >>> 16) &&& 0xff, rgbaA := (payload >>> 24) &&& 0xff
           rgbaQ := payload >>> 32 }

def adST (payload : Nat) (s : GSState) : GSState :=
  { s with stS := payload &&& 0xffffffff, stT := payload >>> 32 }

/-- UV layout: U 0..13, V 16..29. -/
def adUV (payload : Nat) (s : GSState) : GSState :=
  { s with uvU := payload &&& 0x3fff, uvV := (payload >>> 16) &&& 0x3fff }

/-- FOG layout: F 56..63. -/
def adFOG (payload : Nat) (s : GSState) : GSState :=
  { s with fogF := payload >>> 56 }

def adXYZ2 (L : Limits) (payload : Nat) (s : GSState) : GSState :=
  drawingKick L false (vertexKickXYZ payload s)

def adXYZF2 (L : Limits) (payload : Nat) (s : GSState) : GSState :=
  drawingKick L false (vertexKickXYZF payload s)

def adXYZ3 (payload : Nat) (s : GSState) : GSState := vertexKickXYZ payload s

def adXYZF3 (payload : Nat) (s : GSState) : GSState := vertexKickXYZF payload s

def adTEX0 (L : Limits) (ctxIndex : Nat) (payload : Nat) (s : GSState) : GSState :=
  let t := decodeTEX0 payload
  let old := if ctxIndex == 0 then s.ctx0.tex0 else s.ctx1.tex0
  let s := setDirtyIf (old != t)
    (DIRTY_FEEDBACK ||| DIRTY_STATE ||| DIRTY_PRIM_TEMPLATE ||| DIRTY_TEX) s
  let s :=
    if ctxIndex == 0 then { s with ctx0 := { s.ctx0 with tex0 := t } }
    else { s with ctx1 := { s.ctx1 with tex0 := t } }
  let s := handleClutUpload L ctxIndex s
  handleMiptblGen ctxIndex s

def adTEXCLUT (payload : Nat) (s : GSState) : GSState :=
  { s with texclut := decodeTEXCLUT payload }

def adSCANMSK (payload : Nat) (s : GSState) : GSState :=
  let m := payload &&& 3
  let s := setDirtyIf (s.scanmskMSK != m) DIRTY_PRIM_TEMPLATE s
  { s with scanmskMSK := m }

def adTEXA (payload : Nat) (s : GSState) : GSState :=
  let s := setDirtyIf (s.texa != payload) (DIRTY_PRIM_TEMPLATE ||| DIRTY_TEX) s
  { s with texa := payload }

def adFOGCOL (payload : Nat) (s : GSState) : GSState :=
  { s with fogcol := payload }

/-- `GSInterface::a_d_TEXFLUSH` (gs_interface.cpp:2473-2478): the source
relies on its own page tracking and the handler's body is empty. -/
def adTEXFLUSH (_payload : Nat) (s : GSState) : GSState := s

def adSCISSOR (ctxIndex : Nat) (payload : Nat) (s : GSState) : GSState :=
  let v := decodeSCISSOR payload
  let old := if ctxIndex == 0 then s.ctx0.scissor else s.ctx1.scissor
  let s := setDirtyIf (old != v) DIRTY_DEGENERATE s
  if ctxIndex == 0 then { s with ctx0 := { s.ctx0 with scissor := v } }
  else { s with ctx1 := { s.ctx1 with scissor := v } }

def adALPHA (ctxIndex : Nat) (payload : Nat) (s : GSState) : GSState :=
  let v := decodeALPHA payload
  let old := if ctxIndex == 0 then s.ctx0.alpha else s.ctx1.alpha
  let s := setDirtyIf (old != v) (DIRTY_STATE ||| DIRTY_PRIM_TEMPLATE) s
  if ctxIndex == 0 then { s with ctx0 := { s.ctx0 with alpha := v } }
  else { s with ctx1 := { s.ctx1 with alpha := v } }

def adDIMX (payload : Nat) (s : GSState) : GSState :=
  let d0 := payload &&& 0xffffffff
  let d1 := payload >>> 32
  let s := setDirtyIf (s.dimx0 != d0 || s.dimx1 != d1)
    (DIRTY_STATE ||| DIRTY_PRIM_TEMPLATE) s
  { s with dimx0 := d0, dimx1 := d1 }

def adDTHE (payload : Nat) (s : GSState) : GSState :=
  let v := payload &&& 1
  let s := setDirtyIf (s.dthe != v) (DIRTY_STATE ||| DIRTY_PRIM_TEMPLATE) s
  { s with dthe := v }

def adCOLCLAMP (payload : Nat) (s : GSState) : GSState :=
  let v := payload &&& 1
  let s := setDirtyIf (s.colclamp != v) (DIRTY_STATE ||| DIRTY_PRIM_TEMPLATE) s
  { s with colclamp := v }

def adTEST (ctxIndex : Nat) (payload : Nat) (s : GSState) : GSState :=
  let v := decodeTEST payload
  let old := if ctxIndex == 0 then s.ctx0.test else s.ctx1.test
  let s := setDirtyIf (old != v)
    (DIRTY_DEGENERATE ||| DIRTY_STATE ||| DIRTY_PRIM_TEMPLATE) s
  if ctxIndex == 0 then { s with ctx0 := { s.ctx0 with test := v } }
  else { s with ctx1 := { s.ctx1 with test := v } }

def adPABE (payload : Nat) (s : GSState) : GSState :=
  let v := payload &&& 1
  let s := setDirtyIf (s.pabe != v) (DIRTY_STATE ||| DIRTY_PRIM_TEMPLATE) s
  { s with pabe := v }

def adFBA (ctxIndex : Nat) (payload : Nat) (s : GSState) : GSState :=
  let v := payload &&& 1
  let old := if ctxIndex == 0 then s.ctx0.fba else s.ctx1.fba
  let s := setDirtyIf (old != v) (DIRTY_STATE ||| DIRTY_PRIM_TEMPLATE) s
  if ctxIndex == 0 then { s with ctx0 := { s.ctx0 with fba := v } }
  else { s with ctx1 := { s.ctx1 with fba := v } }

def adFRAME (ctxIndex : Nat) (payload : Nat) (s : GSState) : GSState :=
  let v := decodeFRAME payload
  let old := if ctxIndex == 0 then s.ctx0.frame else s.ctx1.frame
  let s := setDirtyIf (old != v)
    (DIRTY_DEGENERATE ||| DIRTY_FEEDBACK ||| DIRTY_FB ||| DIRTY_PRIM_TEMPLATE) s
  if ctxIndex == 0 then { s with ctx0 := { s.ctx0 with frame := v } }
  else { s with ctx1 := { s.ctx1 with frame := v } }

def adZBUF (ctxIndex : Nat) (payload : Nat) (s : GSState) : GSState :=
  let v := decodeZBUF payload
  let old := if ctxIndex == 0 then s.ctx0.zbuf else s.ctx1.zbuf
  let s := setDirtyIf (old != v)
    (DIRTY_FEEDBACK ||| DIRTY_DEGENERATE ||| DIRTY_FB ||| DIRTY_PRIM_TEMPLATE) s
  if ctxIndex == 0 then { s with ctx0 := { s.ctx0 with zbuf := v } }
  else { s with ctx1 := { s.ctx1 with zbuf := v } }

def adXYOFFSET (ctxIndex : Nat) (payload : Nat) (s : GSState) : GSState :=
  let v := decodeXYOFFSET payload
  if ctxIndex == 0 then { s with ctx0 := { s.ctx0 with xyoffset := v } }
  else { s with ctx1 := { s.ctx1 with xyoffset := v } }

/-- `GSInterface::write_register` (gs_interface.cpp:2932-2935) through the
256-entry A+D dispatch table.  Modelled registers dispatch to their
handlers; registers whose handlers are outside the modelled domain
(CLAMP, TEX1/TEX2, MIPTBP, transfer registers, HWREG) set `modelGap`;
unassigned addresses and the empty SIGNAL/FINISH/LABEL handlers are
no-ops, as in the source. -/
def writeRegister (L : Limits) (addr payload : Nat) (s : GSState) : GSState :=
  if addr == 0x00 then adPRIM payload s
  else if addr == 0x01 then adRGBAQ payload s
  else if addr == 0x02 then adST payload s
  else if addr == 0x03 then adUV payload s
  else if addr == 0x04 then adXYZF2 L payload s
  else if addr == 0x05 then adXYZ2 L payload s
  else if addr == 0x06 then adTEX0 L 0 payload s
  else if addr == 0x07 then adTEX0 L 1 payload s
  else if addr == 0x0a then adFOG payload s
  else if addr == 0x0c then adXYZF3 payload s
  else if addr == 0x0d then adXYZ3 payload s
  else if addr == 0x18 then adXYOFFSET 0 payload s
  else if addr == 0x19 then adXYOFFSET 1 payload s
  else if addr == 0x1a then adPRMODECONT payload s
  else if addr == 0x1b then adPRMODE payload s
  else if addr == 0x1c then adTEXCLUT payload s
  else if addr == 0x22 then adSCANMSK payload s
  else if addr == 0x3b then adTEXA payload s
  else if addr == 0x3d then adFOGCOL payload s
  else if addr == 0x3f then adTEXFLUSH payload s
  else if addr == 0x40 then adSCISSOR 0 payload s
  else if addr == 0x41 then adSCISSOR 1 payload s
  else if addr == 0x42 then adALPHA 0 payload s
  else if addr == 0x43 then adALPHA 1 payload s
  else if addr == 0x44 then adDIMX payload s
  else if addr == 0x45 then adDTHE payload s
  else if addr == 0x46 then adCOLCLAMP payload s
  else if addr == 0x47 then adTEST 0 payload s
  else if addr == 0x48 then adTEST 1 payload s
  else if addr == 0x49 then adPABE payload s
  else if addr == 0x4a then adFBA 0 payload s
  else if addr == 0x4b then adFBA 1 payload s
  else if addr == 0x4c then adFRAME 0 payload s
  else if addr == 0x4d then adFRAME 1 payload s
  else if addr == 0x4e then adZBUF 0 payload s
  else if addr == 0x4f then adZBUF 1 payload s
  else if addr == 0x08 || addr == 0x09 || addr == 0x14 || addr == 0x15
       || addr == 0x16 || addr == 0x17 || addr == 0x34 || addr == 0x35
       || addr == 0x36 || addr == 0x37 || addr == 0x50 || addr == 0x51
       || addr == 0x52 || addr == 0x53 || addr == 0x54 then
    { s with modelGap := true }
  else s

/-- The external `GSInterface::flush` entry point (gs_interface.cpp:
2916-2920): flush any pending transfer, then
`renderer.flush_submit(tracker.mark_submission_timeline())`.  Modelled
from the spec: `mark_submission_timeline` (page_tracker.cpp, outside
src/) resolves all batched GPU operations, which for the modelled
scenarios (only an accumulated render pass) is the render-pass phase of
the flush callback with reason SubmissionFlush. -/
def gsFlush (s : GSState) : GSState :=
  let s := flushPendingTransfer true s
  interfaceFlush FLUSH_FB_BIT .submissionFlush s

/-- Apply a list of `(address, payload)` register writes in order. -/
def runWrites (L : Limits) (ws : List (Nat × Nat)) (s : GSState) : GSState :=
  ws.foldl (fun s w => writeRegister L w.1 w.2 s) s

/-! ## Scenario inputs and spec-side characterizations -/

/-- Number of `update_palette_cache` back-end calls in a trace. -/
def countPaletteUploads (t : List TraceEvent) : Nat :=
  (t.filter fun e => match e with
    | .updatePaletteCache _ _ _ => true
    | _ => false).length

/-- Number of render-pass flushes with reason Overflow in a trace. -/
def countOverflowFlushes (t : List TraceEvent) : Nat :=
  (t.filter fun e => match e with
    | .flushRendering _ _ _ _ _ _ r => r == FlushReason.overflow
    | _ => false).length

/-- Number of render-pass flushes (any reason) in a trace. -/
def countRenderPassFlushes (t : List TraceEvent) : Nat :=
  (t.filter fun e => match e with
    | .flushRendering _ _ _ _ _ _ _ => true
    | _ => false).length

/-- C1 probe input: a PACKED tag with NLOOP=1, NREG=2, REGS=(A+D, A+D),
followed by a single A+D qword (payload 0x123456789 to register 0x47).
The transfer is 2 qwords (32 bytes). -/
def c1GifInput : List (Nat × Nat) := [(1 + 2 * 2 ^ 60, 0xee), (0x123456789, 0x47)]

/-- C2 probe: a PACKED tag with NLOOP=2, NREG=2, REGS=(A+D, A+D).
`c2A` carries the tag plus the first A+D qword; `c2B` carries the
remaining three A+D qwords; the split is on a 16-byte boundary. -/
def c2A : List (Nat × Nat) := [(2 + 2 * 2 ^ 60, 0xee), (0x10, 0x47)]
def c2B : List (Nat × Nat) := [(0x11, 0x47), (0x12, 0x47), (0x13, 0x47)]

/-- The trivial-sprite scenario register writes exactly as the claim
lists them: FRAME=(FBP=0, FBW=10, PSM=PSMCT32); ZBUF disabled (ZMSK=1);
TEST with ZTE disabled (0); PRIM=Sprite with TME=0, ABE=0; two XYZ2 at
subpixel (100,100) and (500,500). -/
def trivialSpriteWrites : List (Nat × Nat) :=
  [ (0x4c, 10 <<< 16)
  , (0x4e, 1 <<< 32)
  , (0x47, 0)
  , (0x00, 6)
  , (0x05, 100 + (100 <<< 16))
  , (0x05, 500 + (500 <<< 16)) ]

/-- The trivial-sprite scenario run against a reset interface, then
flushed. -/
def trivialSpriteRun : GSState :=
  gsFlush (runWrites defaultLimits trivialSpriteWrites {})

/-- The trivial-sprite scenario with a SCISSOR_1 covering the 640-pixel
frame buffer (0,0,639,639), which the as-stated scenario lacks (a reset
scissor is the empty-after-clamp (0,0,0,0)). -/
def trivialSpriteAmendedWrites : List (Nat × Nat) :=
  [ (0x4c, 10 <<< 16)
  , (0x4e, 1 <<< 32)
  , (0x47, 0)
  , (0x40, (639 <<< 16) ||| (639 <<< 48))
  , (0x00, 6)
  , (0x05, 100 + (100 <<< 16))
  , (0x05, 500 + (500 <<< 16)) ]

def trivialSpriteAmendedRun : GSState :=
  gsFlush (runWrites defaultLimits trivialSpriteAmendedWrites {})

/-- TEX0_1 payload A for the palette-memoization scenario: PSMT4 texture,
16-bit palette at CBP=0x100, CSA=0, CSM=0, CLD=LOAD. -/
def clutTex0A : Nat := (20 <<< 20) ||| (0x100 <<< 37) ||| (2 <<< 51) ||| (1 <<< 61)

/-- TEX0_1 payload B: PSMT8 texture (full 16-sub-bank CSA mask), 16-bit
palette at CBP=0x140, CLD=LOAD. -/
def clutTex0B : Nat := (19 <<< 20) ||| (0x140 <<< 37) ||| (2 <<< 51) ||| (1 <<< 61)

/-- Palette scenario: upload A, then B (whose CSA mask strictly contains
A's), then A again with identical bits. -/
def paletteShadowRun : GSState :=
  runWrites defaultLimits [(0x06, clutTex0A), (0x06, clutTex0B), (0x06, clutTex0A)] {}

/-- The state right before the third upload of `paletteShadowRun`. -/
def paletteShadowPrefix : GSState :=
  runWrites defaultLimits [(0x06, clutTex0A), (0x06, clutTex0B)] {}

/-- Palette scenario: upload A twice with identical bits. -/
def paletteRepeatRun : GSState :=
  runWrites defaultLimits [(0x06, clutTex0A), (0x06, clutTex0A)] {}

/-- Capacity constants with `MaxPrimitivesPerFlush = n`. -/
def spriteLimits (n : Nat) : Limits := { defaultLimits with maxPrims := n }

def spriteV1 : Nat := 100 + (100 <<< 16)
def spriteV2 : Nat := 500 + (500 <<< 16)

/-- Identical setup to the trivial-sprite scenario (with the covering
scissor), used by the overflow scenario. -/
def spriteSetupWrites : List (Nat × Nat) :=
  [ (0x4c, 10 <<< 16)
  , (0x4e, 1 <<< 32)
  , (0x47, 0)
  , (0x40, (639 <<< 16) ||| (639 <<< 48))
  , (0x00, 6) ]

/-- One identical sprite: two XYZ2 vertex kicks. -/
def spriteDraw (L : Limits) (s : GSState) : GSState :=
  adXYZ2 L spriteV2 (adXYZ2 L spriteV1 s)

/-- `k` identical sprites. -/
def spriteDraws (L : Limits) : Nat → GSState → GSState
  | 0, s => s
  | k + 1, s => spriteDraw L (spriteDraws L k s)

/-- The overflow scenario: setup writes, then `k` identical sprites,
with `MaxPrimitivesPerFlush = n`. -/
def spriteScenario (n k : Nat) : GSState :=
  spriteDraws (spriteLimits n) k (runWrites (spriteLimits n) spriteSetupWrites {})

/-- The register state the setup writes install (the draw-independent
part of the scenario), as an explicit literal: Sprite PRIM, FRAME FBW=10,
ZBUF masked, open 639×639 scissor; every dirty bit except TEX set (the
PRIM write with TME=0 clears TEX). -/
def spriteFreshLit : GSState :=
  { prim := { prim := 6 }
    dirtyFlags := 55
    ctx0 := { frame := { fbw := 10 }, zbuf := { zmsk := 1 }
              scissor := { scax1 := 639, scay1 := 639 } } }

/-- The one primitive every sprite of the scenario appends. -/
def spritePrim : PrimAttr :=
  { tex := 0, tex2 := 0, state := 11400, fbmsk := 0, fogcol := 0, alpha := 0
    bb := { x := 7, y := 7, z := 31, w := 31 } }

def spritePosTriple : VertexPos × VertexPos × VertexPos :=
  ({ x := 500, y := 500, z := 0 }, { x := 100, y := 100, z := 0 }, {})

def spriteAttrTriple : VertexAttr × VertexAttr × VertexAttr := ({}, {}, {})

/-- The single `mark_fb_write` the scenario issues when the render-pass
damage region first expands. -/
def spriteMarkEvent : TraceEvent :=
  .markFbWrite { basePage := 0, pageWidth := 1, pageHeight := 1, pageStride := 10
                 blockMask := 0xffffffff, writeMask := 0xffffffff }

def spriteBB : BBox := { x := 7, y := 7, z := 31, w := 31 }

/-- The state after the first sprite of the scenario, as an explicit
literal (validated against `spriteScenario` in the C5 theorem's proof). -/
def spriteBaseLit : GSState :=
  { spriteFreshLit with
    dirtyFlags := 0
    primTemplateState := 136
    rpPrims := [spritePrim]
    rpPositions := [spritePosTriple]
    rpAttrs := [spriteAttrTriple]
    rpStateVectors := [{}]
    rpFrame := { fbw := 10 }
    rpFbPageWLog2 := 6
    rpFbPageHLog2 := 5
    rpBB := spriteBB
    rpColorWriteMask := 0xffffffff
    trace := [spriteMarkEvent] }

/-- The steady state after `k` sprites (no flush yet): the accumulator
holds `k` copies of the identical primitive. -/
def spriteSteady (k : Nat) : GSState :=
  { spriteBaseLit with
    rpPrims := List.replicate k spritePrim
    rpPositions := List.replicate k spritePosTriple
    rpAttrs := List.replicate k spriteAttrTriple }

/-- The Overflow render-pass flush emitted after sprite `n`. -/
def spriteOverflowEvent (n : Nat) : TraceEvent :=
  .flushRendering n 1 0 0 spriteBB (tileSizeLog2 spriteBB n 0) .overflow

/-- The state right after the Overflow flush that follows sprite `n`. -/
def spriteFlushed (n : Nat) : GSState :=
  { spriteBaseLit with
    rpPrims := [], rpPositions := [], rpAttrs := [], rpStateVectors := []
    rpBB := emptyBB, rpColorWriteMask := 0
    dirtyFlags := DIRTY_ALL, rpLabelKey := 1
    trace := [spriteMarkEvent, spriteOverflowEvent n] }

/-- The state after sprite `n + 1`: the accumulator holds the one
primitive drawn after the flush. -/
def spriteFinal (n : Nat) : GSState :=
  { spriteBaseLit with
    rpLabelKey := 1
    trace := [spriteMarkEvent, spriteOverflowEvent n, spriteMarkEvent] }

/-- The spec's flush-lattice phase list (§4.3 of the spec / claim C6),
written from the spec's words: host→VRAM page sync, then copy flush or
copy-overlap barrier (barrier exactly when no cache, render-pass or
write-back phase accompanies the copy), then texture-cache upload flush,
then render-pass flush, then readback flush. -/
def specFlushPhases (flags : Nat) (reason : FlushReason) (s : GSState) : List TraceEvent :=
  (if flags &&& FLUSH_HOST_VRAM_SYNC_BIT != 0 && s.syncHostVramPages != [] then
    [.flushHostVramCopy s.syncHostVramPages] else [])
  ++ (if flags &&& FLUSH_COPY_BIT != 0 then
      [if flags &&& (FLUSH_CACHE_BIT ||| FLUSH_FB_BIT ||| FLUSH_WRITE_BACK_BIT) != 0 then
        .flushTransfer
       else .transferOverlapBarrier] else [])
  ++ (if flags &&& FLUSH_CACHE_BIT != 0 then [.flushCacheUpload] else [])
  ++ (if flags &&& FLUSH_FB_BIT != 0 && s.rpPrims.length != 0 then
      [.flushRendering s.rpPrims.length s.rpStateVectors.length s.rpNumTextures
        s.rpPendingPaletteUpdates s.rpBB
        (tileSizeLog2 s.rpBB s.rpPrims.length s.samplingRateYLog2) reason] else [])
  ++ (if flags &&& FLUSH_WRITE_BACK_BIT != 0 && s.syncVramHostPages != [] then
      [.flushReadback s.syncVramHostPages] else [])

/-- The spec's four degenerate-draw conditions (§4.6 step 1 / claim C7),
written from the spec's words: empty scissor; depth test NEVER; alpha
test NEVER with fail mode KEEP; both Z and color writes masked off
(an undefined ZTE also disables the Z write). -/
def specScissorEmpty (s : GSState) : Bool :=
  s.ctx.scissor.scax0 > s.ctx.scissor.scax1 || s.ctx.scissor.scay0 > s.ctx.scissor.scay1

def specDepthNever (s : GSState) : Bool :=
  s.ctx.test.zte == ZTE_ENABLED && s.ctx.test.ztst == ZTST_NEVER

def specAlphaNeverKeep (s : GSState) : Bool :=
  s.ctx.test.ate != 0 && s.ctx.test.atst == ATST_NEVER && s.ctx.test.afail == AFAIL_KEEP

def specWritesMasked (s : GSState) : Bool :=
  (s.ctx.zbuf.zmsk != 0 || s.ctx.test.zte == ZTE_UNDEFINED)
    && s.ctx.frame.fbmsk == 0xffffffff

def specDegenerateDraw (s : GSState) : Bool :=
  specScissorEmpty s || specDepthNever s || specAlphaNeverKeep s || specWritesMasked s

/-- The spec's coarse-tile cost thresholds (§6 / claim C8), written from
the spec's words: log2 = 3 below 10^4, 4 below 10^7, 5 below 10^8,
else 6; minus one when vertical super-sampling is active and the chosen
value exceeds 3. -/
def specCoarseTileLog2 (cost : Nat) (verticalSS : Bool) : Nat :=
  let l :=
    if cost < 10 ^ 4 then 3
    else if cost < 10 ^ 7 then 4
    else if cost < 10 ^ 8 then 5
    else 6
  if verticalSS && l > 3 then l - 1 else l

/-! ## Helper lemmas for the overflow scenario -/

lemma sprite_setup_eq (L : Limits) : runWrites L spriteSetupWrites {} = spriteFreshLit := by
  simp +decide [runWrites, spriteSetupWrites, writeRegister, adFRAME, adZBUF, adTEST,
    adSCISSOR, adPRIM, decodeFRAME, decodeZBUF, decodeTEST, decodeSCISSOR, decodePRIM,
    setDirtyIf, clearBits, spriteFreshLit]

set_option maxHeartbeats 4000000 in
lemma sprite_first_draw (n : Nat) (hn : 2 ≤ n) :
    spriteDraw (spriteLimits n) spriteFreshLit = spriteBaseLit := by
  have hk : ¬ n ≤ 0 := by omega
  have hk1 : ¬ n ≤ 1 := by omega
  simp +decide [spriteDraw, adXYZ2, drawingKick, drawingKickBody, vertexKickXYZ, vertexKick,
        spriteBaseLit, spriteFreshLit, drawingKickPrimitive, drawingKickAppend,
        drawIsDegenerate, getAndClearDirty, clearBits, updateColorFeedbackState,
        checkFrameBufferState, drawingKickUpdateState, drawingKickUpdateStateVector,
        findOrPlaceUniqueStateVector, stateIsZSensitive, postDrawKickHandler,
        drawingKickMaintainQueue, trackerFlushRenderPass, flushPendingTransfer,
        interfaceFlush, flushPhaseSync, flushPhaseCopy, flushPhaseCache, flushPhaseFb,
        flushPhaseWb, flushRenderPassFn, emit, computeFbRect, computeZRect, psmPageLog2,
        trackerMarkFbWrite, trackerMarkFbRead, natClearBit, pmin, pmax, sarInt,
        spritePrim, spritePosTriple, spriteAttrTriple, spriteMarkEvent, spriteBB,
        GSState.ctx, spriteV1, spriteV2, spriteLimits, defaultLimits, hk, hk1]

set_option maxHeartbeats 4000000 in
lemma sprite_step_draw (n : Nat) (a : List PrimAttr)
    (b : List (VertexPos × VertexPos × VertexPos))
    (c : List (VertexAttr × VertexAttr × VertexAttr))
    (h2 : a.length + 1 < n) :
    spriteDraw (spriteLimits n)
      { spriteBaseLit with rpPrims := a, rpPositions := b, rpAttrs := c } =
    { spriteBaseLit with rpPrims := a ++ [spritePrim]
                         rpPositions := b ++ [spritePosTriple]
                         rpAttrs := c ++ [spriteAttrTriple] } := by
  have hk : ¬ n ≤ a.length := by omega
  have hk1 : ¬ n ≤ a.length + 1 := by omega
  simp +decide [spriteDraw, adXYZ2, drawingKick, drawingKickBody, vertexKickXYZ, vertexKick,
        spriteBaseLit, spriteFreshLit, drawingKickPrimitive, drawingKickAppend,
        drawIsDegenerate, getAndClearDirty, clearBits, updateColorFeedbackState,
        checkFrameBufferState, drawingKickUpdateState, drawingKickUpdateStateVector,
        findOrPlaceUniqueStateVector, stateIsZSensitive, postDrawKickHandler,
        drawingKickMaintainQueue, trackerFlushRenderPass, flushPendingTransfer,
        interfaceFlush, flushPhaseSync, flushPhaseCopy, flushPhaseCache, flushPhaseFb,
        flushPhaseWb, flushRenderPassFn, emit, computeFbRect, computeZRect,
        trackerMarkFbWrite, trackerMarkFbRead, natClearBit, pmin, pmax, sarInt,
        spritePrim, spritePosTriple, spriteAttrTriple, spriteMarkEvent, spriteBB,
        GSState.ctx, spriteV1, spriteV2, spriteLimits, defaultLimits, hk, hk1]

set_option maxHeartbeats 4000000 in
lemma sprite_overflow_draw (n : Nat) (a : List PrimAttr)
    (b : List (VertexPos × VertexPos × VertexPos))
    (c : List (VertexAttr × VertexAttr × VertexAttr))
    (hn : 2 ≤ n) (ha : a.length + 1 = n) :
    spriteDraw (spriteLimits n)
      { spriteBaseLit with rpPrims := a, rpPositions := b, rpAttrs := c } =
    spriteFlushed n := by
  have hk : ¬ n ≤ a.length := by omega
  have hnz : n ≠ 0 := by omega
  simp +decide [spriteDraw, adXYZ2, drawingKick, drawingKickBody, vertexKickXYZ, vertexKick,
        spriteBaseLit, spriteFreshLit, spriteFlushed, spriteOverflowEvent,
        drawingKickPrimitive, drawingKickAppend,
        drawIsDegenerate, getAndClearDirty, clearBits, updateColorFeedbackState,
        checkFrameBufferState, drawingKickUpdateState, drawingKickUpdateStateVector,
        findOrPlaceUniqueStateVector, stateIsZSensitive, postDrawKickHandler,
        drawingKickMaintainQueue, trackerFlushRenderPass, flushPendingTransfer,
        interfaceFlush, flushPhaseSync, flushPhaseCopy, flushPhaseCache, flushPhaseFb,
        flushPhaseWb, flushRenderPassFn, emit, computeFbRect, computeZRect,
        trackerMarkFbWrite, trackerMarkFbRead, natClearBit, pmin, pmax, sarInt,
        spritePrim, spritePosTriple, spriteAttrTriple, spriteMarkEvent, spriteBB,
        GSState.ctx, spriteV1, spriteV2, spriteLimits, defaultLimits, hk, ha, hnz]

set_option maxHeartbeats 4000000 in
lemma sprite_post_flush_draw (n m : Nat) (hn : 2 ≤ n) :
    spriteDraw (spriteLimits n) (spriteFlushed m) = spriteFinal m := by
  have hk : ¬ n ≤ 0 := by omega
  have hk1 : ¬ n ≤ 1 := by omega
  simp +decide [spriteDraw, adXYZ2, drawingKick, drawingKickBody, vertexKickXYZ, vertexKick,
        spriteBaseLit, spriteFreshLit, spriteFlushed, spriteFinal,
        drawingKickPrimitive, drawingKickAppend,
        drawIsDegenerate, getAndClearDirty, clearBits, updateColorFeedbackState,
        checkFrameBufferState, drawingKickUpdateState, drawingKickUpdateStateVector,
        findOrPlaceUniqueStateVector, stateIsZSensitive, postDrawKickHandler,
        drawingKickMaintainQueue, trackerFlushRenderPass, flushPendingTransfer,
        interfaceFlush, flushPhaseSync, flushPhaseCopy, flushPhaseCache, flushPhaseFb,
        flushPhaseWb, flushRenderPassFn, emit, computeFbRect, computeZRect, psmPageLog2,
        trackerMarkFbWrite, trackerMarkFbRead, natClearBit, pmin, pmax, sarInt,
        spritePrim, spritePosTriple, spriteAttrTriple, spriteMarkEvent, spriteBB,
        GSState.ctx, spriteV1, spriteV2, spriteLimits, defaultLimits, hk, hk1]

lemma sprite_steady_one : spriteSteady 1 = spriteBaseLit := by decide

lemma sprite_scenario_succ (n k : Nat) :
    spriteScenario n (k + 1) = spriteDraw (spriteLimits n) (spriteScenario n k) := rfl

lemma sprite_steady_as_update (k : Nat) :
    spriteSteady k =
    { spriteBaseLit with rpPrims := List.replicate k spritePrim
                         rpPositions := List.replicate k spritePosTriple
                         rpAttrs := List.replicate k spriteAttrTriple } := rfl

lemma sprite_steady_eq (n : Nat) (hn : 2 ≤ n) :
    ∀ k, 1 ≤ k → k < n → spriteScenario n k = spriteSteady k := by
  intro k
  induction k with
  | zero => intro h1 _; exact absurd h1 (by decide)
  | succ k ih =>
    intro _ h2
    by_cases hk : k = 0
    · subst hk
      have : spriteScenario n 1 = spriteDraw (spriteLimits n) (runWrites (spriteLimits n) spriteSetupWrites {}) := rfl
      rw [this, sprite_setup_eq, sprite_first_draw n hn, ← sprite_steady_one]
    · have hk1 : 1 ≤ k := by omega
      have hkn : k < n := by omega
      rw [sprite_scenario_succ, ih hk1 hkn, sprite_steady_as_update,
        sprite_step_draw n _ _ _ (by simpa using h2), sprite_steady_as_update]
      simp [List.replicate_succ']

/-! ## Claim theorems -/

/-- C1: the optimized whole-loop GIF handler is claimed to be
observably identical to the generic one-register-at-a-time PACKED
dispatcher and never to consume quad-words beyond the transfer size.
The code computes `nloops_to_run` from the *total* transfer size rather
than the unconsumed remainder (gs_interface.cpp:2989), so on a 2-qword
transfer holding a NREG=2 A+D tag plus one payload qword the fast path
consumes 3 qwords, dispatches a phantom A+D write read from beyond the
buffer, and leaves the path cursors ahead of the generic dispatcher.
This theorem evaluates the embedded code at that failing input. -/
theorem gif_fast_path_overconsumes_C1 :
    c1GifInput.length = 2 ∧
    (gifTransfer {} c1GifInput).consumedEnd = 3 ∧
    (gifTransfer {} c1GifInput).events =
      [.adWrite 0x47 0x123456789, .adWrite 0 0] ∧
    (gifTransferGeneric {} c1GifInput).events = [.adWrite 0x47 0x123456789] ∧
    (gifTransfer {} c1GifInput).loop ≠ (gifTransferGeneric {} c1GifInput).loop ∧
    (gifTransfer {} c1GifInput).reg ≠ (gifTransferGeneric {} c1GifInput).reg := by
  decide

/-- C2: `gif_transfer(path, A)` then `gif_transfer(path, B)` is claimed
equivalent to `gif_transfer(path, A ++ B)` for any 16-byte-aligned
split.  Because the fast path sizes its loop count from the total
transfer size (gs_interface.cpp:2989), the split run over-consumes past
A, dispatches a phantom write, then treats B's last qword as a fresh
GIFTag, while the fused run consumes every qword as register data.
This theorem evaluates the embedded code at that failing split. -/
theorem gif_transfer_split_diverges_C2 :
    gifTransfer (gifTransfer {} c2A) c2B ≠ gifTransfer {} (c2A ++ c2B) ∧
    (gifTransfer (gifTransfer {} c2A) c2B).events ≠
      (gifTransfer {} (c2A ++ c2B)).events ∧
    (gifTransfer (gifTransfer {} c2A) c2B).tag ≠ (gifTransfer {} (c2A ++ c2B)).tag ∧
    (gifTransfer (gifTransfer {} c2A) c2B).stuck = false ∧
    (gifTransfer {} (c2A ++ c2B)).stuck = false := by
  decide

/-- C3 counterexample: running the trivial-sprite scenario exactly as
stated (a reset interface, whose SCISSOR is (0,0,0,0), with the listed
FRAME/ZBUF/TEST/PRIM writes and the two XYZ2 kicks at (100,100) and
(500,500)) and flushing produces *no* render pass at all: the sprite's
bounding box is clamped to the reset scissor and dropped as degenerate,
so the claimed single render pass with bbox (6,6,31,31) does not occur. -/
theorem trivial_sprite_as_stated_C3_cex :
    countRenderPassFlushes trivialSpriteRun.trace = 0 ∧
    trivialSpriteRun.rpPrims = [] ∧
    trivialSpriteRun.modelGap = false := by
  decide

/-- C3 amended: with a SCISSOR_1 of (0,0,639,639) added to the setup,
the scenario produces exactly one render pass containing one primitive
with bounding box (7,7,31,31) (the top-left raster rule tightens the
lower bound from 100/16 = 6.25 to 7), one state vector, zero textures
and zero palette instances. -/
theorem trivial_sprite_amended_C3 :
    trivialSpriteAmendedRun.trace =
      [spriteMarkEvent, .flushRendering 1 1 0 0 spriteBB 3 .submissionFlush] ∧
    countRenderPassFlushes trivialSpriteAmendedRun.trace = 1 ∧
    trivialSpriteAmendedRun.modelGap = false := by
  decide

/-- C4 counterexample: after uploading palette descriptor A and then B
(an 8-bit palette whose CSA mask strictly contains A's), descriptor A is
still memoized in the ring with bits identical to a renewed A upload,
yet the third (identical) upload issues a third `update_palette_cache`
back-end call: the ring scan stops at B because B's CSA mask holds bits
outside A's (gs_interface.cpp:379-382), so "already memoized in the
ring" does not suffice for a hit. -/
theorem palette_memoization_shadowed_C4_cex :
    (∃ m ∈ paletteShadowPrefix.rpMemoizedPalettes,
      m.csaMask = clutCsaMask (decodeTEX0 clutTex0A) ∧
      m.tex0 = clutNormalizedTex0 (decodeTEX0 clutTex0A) ∧
      m.texclut = paletteShadowPrefix.texclut) ∧
    countRenderPassFlushes paletteShadowPrefix.trace = 0 ∧
    countPaletteUploads paletteShadowPrefix.trace = 2 ∧
    countPaletteUploads paletteShadowRun.trace = 3 := by
  decide

/-- C4 amended: within a render pass, a CLUT-loading TEX0 write whose
(CSA mask, normalized TEX0 bits, TEXCLUT bits) match a memoized upload
that is moreover not shadowed — i.e. the newest-first ring scan, which
stops at the first entry whose CSA mask holds bits outside the new mask,
finds it — issues no `update_palette_cache` back-end call, reuses that
entry's palette instance, and leaves the pending-update counter and the
back-end instance allocator untouched. -/
theorem palette_memoization_amended_C4 (L : Limits) (s : GSState)
    (inst : Nat) (rest : List MemoizedPalette)
    (hcld : s.ctx0.tex0.cld = CLD_LOAD)
    (htr : s.transferActive = false)
    (hscan : scanMemoizedRing (clutCsaMask s.ctx0.tex0) (clutNormalizedTex0 s.ctx0.tex0)
      s.texclut s.rpMemoizedPalettes = some (inst, rest)) :
    countPaletteUploads (handleClutUpload L 0 s).trace = countPaletteUploads s.trace ∧
    (handleClutUpload L 0 s).rpClutInstance = inst ∧
    (handleClutUpload L 0 s).nextClutInstance = s.nextClutInstance ∧
    (handleClutUpload L 0 s).rpPendingPaletteUpdates = s.rpPendingPaletteUpdates ∧
    countRenderPassFlushes (handleClutUpload L 0 s).trace =
      countRenderPassFlushes s.trace := by
  have hload : clutLoad s.ctx0.tex0 s.cachedCbp0 s.cachedCbp1 = true := by
    unfold clutLoad
    rw [hcld]
    rfl
  have hupd : clutUpdateCbp s.ctx0.tex0 s = s := by
    unfold clutUpdateCbp
    rw [hcld]
    rfl
  unfold handleClutUpload
  simp only [hload, hupd, beq_self_eq_true, if_true, Bool.not_true, Bool.false_eq_true,
    if_false, reduceIte]
  unfold clutUploadLoad
  rw [htr]
  simp only [Bool.false_and, Bool.false_eq_true, if_false, emit]
  rw [hscan]
  split
  next r heq =>
    injection heq with h
    subst h
    unfold clutUploadHit
    split <;>
      simp [markTextureStateDirty, countPaletteUploads, countRenderPassFlushes,
        List.filter_append]
  next heq => simp at heq

/-- Witness for C4's amended theorem: a second, bit-identical upload of
descriptor A reuses instance 0 without a new back-end call. -/
theorem palette_memoization_amended_C4_witness :
    countPaletteUploads (handleClutUpload defaultLimits 0
      (runWrites defaultLimits [(0x06, clutTex0A)] {})).trace =
      countPaletteUploads (runWrites defaultLimits [(0x06, clutTex0A)] {}).trace ∧
    (handleClutUpload defaultLimits 0
      (runWrites defaultLimits [(0x06, clutTex0A)] {})).rpClutInstance = 0 := by
  have h := palette_memoization_amended_C4 defaultLimits
    (runWrites defaultLimits [(0x06, clutTex0A)] {}) 0 []
    (by decide) (by decide) (by decide)
  exact ⟨h.1, h.2.1⟩

/-- C5: after every draw kick the render pass flushes with reason
Overflow exactly when pending palette updates reach the CLUT-instance
capacity, the primitive count reaches MaxPrimitivesPerFlush, the texture
count reaches MaxTextures, or the state-vector count reaches
MaxStateVectors; consequently, for any MaxPrimitivesPerFlush = n ≥ 2,
emitting n + 1 identical sprites produces exactly one Overflow flush,
placed between primitive n and primitive n + 1. -/
theorem overflow_flush_C5 :
    (∀ (L : Limits) (s : GSState),
      (L.clutInstances ≤ s.rpPendingPaletteUpdates ∨ L.maxPrims ≤ s.rpPrims.length ∨
       L.maxTextures ≤ s.rpNumTextures ∨ L.maxStateVectors ≤ s.rpStateVectors.length) →
      postDrawKickHandler L s =
        trackerFlushRenderPass .overflow (flushPendingTransfer true s)) ∧
    (∀ (L : Limits) (s : GSState),
      ¬ (L.clutInstances ≤ s.rpPendingPaletteUpdates ∨ L.maxPrims ≤ s.rpPrims.length ∨
         L.maxTextures ≤ s.rpNumTextures ∨ L.maxStateVectors ≤ s.rpStateVectors.length) →
      postDrawKickHandler L s = s) ∧
    (∀ n, 2 ≤ n →
      (∀ k, 1 ≤ k → k < n → (spriteScenario n k).trace = [spriteMarkEvent]) ∧
      (spriteScenario n n).trace = [spriteMarkEvent, spriteOverflowEvent n] ∧
      spriteScenario n (n + 1) = spriteFinal n ∧
      countOverflowFlushes (spriteScenario n (n + 1)).trace = 1) := by
  refine ⟨?_, ?_, ?_⟩
  · intro L s h
    unfold postDrawKickHandler
    rw [if_pos]
    simp only [Bool.or_eq_true, decide_eq_true_eq]
    tauto
  · intro L s h
    unfold postDrawKickHandler
    rw [if_neg]
    simp only [Bool.or_eq_true, decide_eq_true_eq]
    tauto
  · intro n hn
    have hflush : spriteScenario n n = spriteFlushed n := by
      have h1 : n - 1 + 1 = n := by omega
      have h2 := sprite_scenario_succ n (n - 1)
      rw [h1] at h2
      rw [h2, sprite_steady_eq n hn (n - 1) (by omega) (by omega), sprite_steady_as_update,
        sprite_overflow_draw n _ _ _ hn (by simpa using h1)]
    have hfinal : spriteScenario n (n + 1) = spriteFinal n := by
      rw [sprite_scenario_succ, hflush, sprite_post_flush_draw n n hn]
    refine ⟨?_, ?_, hfinal, ?_⟩
    · intro k h1 h2
      rw [sprite_steady_eq n hn k h1 h2]
      rfl
    · rw [hflush]
      rfl
    · rw [hfinal]
      simp [spriteFinal, countOverflowFlushes, spriteMarkEvent, spriteOverflowEvent]

/-- Witness for C5 at MaxPrimitivesPerFlush = 3: four sprites, one
Overflow flush after the third. -/
theorem overflow_flush_C5_witness :
    (spriteScenario 3 2).trace = [spriteMarkEvent] ∧
    (spriteScenario 3 3).trace = [spriteMarkEvent, spriteOverflowEvent 3] ∧
    countOverflowFlushes (spriteScenario 3 4).trace = 1 := by
  have h := overflow_flush_C5.2.2 3 (by decide)
  exact ⟨h.1 2 (by decide) (by decide), h.2.1, h.2.2.2⟩

/-- C6: for every flush-callback invocation and flag mask, the emitted
back-end call sequence is exactly the spec's fixed phase order
(host→VRAM sync, copy flush or copy-overlap barrier, texture-cache
upload flush, render-pass flush, readback flush); and when the mask
holds the copy bit but none of the cache, render-pass or write-back
bits, the copy phase issues `transfer_overlap_barrier` instead of
`flush_transfer`. -/
theorem flush_lattice_order_C6 :
    (∀ (flags : Nat) (reason : FlushReason) (s : GSState),
      (interfaceFlush flags reason s).trace = s.trace ++ specFlushPhases flags reason s) ∧
    (∀ (flags : Nat) (reason : FlushReason) (s : GSState),
      flags &&& FLUSH_COPY_BIT ≠ 0 →
      flags &&& (FLUSH_CACHE_BIT ||| FLUSH_FB_BIT ||| FLUSH_WRITE_BACK_BIT) = 0 →
      (interfaceFlush flags reason s).trace =
        s.trace ++
        (if flags &&& FLUSH_HOST_VRAM_SYNC_BIT != 0 && s.syncHostVramPages != [] then
          [.flushHostVramCopy s.syncHostVramPages] else []) ++
        [.transferOverlapBarrier]) := by
  have hsync : ∀ (flags : Nat) (s : GSState), flushPhaseSync flags s =
      { s with
        syncHostVramPages :=
          if flags &&& FLUSH_HOST_VRAM_SYNC_BIT != 0 then [] else s.syncHostVramPages
        trace := s.trace ++
          (if flags &&& FLUSH_HOST_VRAM_SYNC_BIT != 0 && s.syncHostVramPages != [] then
            [.flushHostVramCopy s.syncHostVramPages] else []) } := by
    intro flags s
    unfold flushPhaseSync emit
    split_ifs <;> simp_all
  have hcopy : ∀ (flags : Nat) (s : GSState), flushPhaseCopy flags s =
      { s with trace := s.trace ++
        (if flags &&& FLUSH_COPY_BIT != 0 then
          [if flags &&& (FLUSH_CACHE_BIT ||| FLUSH_FB_BIT ||| FLUSH_WRITE_BACK_BIT) != 0 then
            .flushTransfer
           else .transferOverlapBarrier] else []) } := by
    intro flags s
    unfold flushPhaseCopy emit
    split_ifs <;> simp_all
  have hcacheP : ∀ (flags : Nat) (s : GSState), flushPhaseCache flags s =
      { s with
        rpMemoizedPalettes :=
          if flags &&& FLUSH_CACHE_BIT != 0 then [] else s.rpMemoizedPalettes
        trace := s.trace ++
          (if flags &&& FLUSH_CACHE_BIT != 0 then [.flushCacheUpload] else []) } := by
    intro flags s
    unfold flushPhaseCache emit
    split_ifs <;> simp_all
  have hfbP : ∀ (flags : Nat) (reason : FlushReason) (s : GSState),
      flushPhaseFb flags reason s =
      { s with
        rpPrims := if flags &&& FLUSH_FB_BIT != 0 then [] else s.rpPrims
        rpPositions := if flags &&& FLUSH_FB_BIT != 0 then [] else s.rpPositions
        rpAttrs := if flags &&& FLUSH_FB_BIT != 0 then [] else s.rpAttrs
        rpStateVectors := if flags &&& FLUSH_FB_BIT != 0 then [] else s.rpStateVectors
        rpNumTextures := if flags &&& FLUSH_FB_BIT != 0 then 0 else s.rpNumTextures
        rpPendingPaletteUpdates :=
          if flags &&& FLUSH_FB_BIT != 0 then 0 else s.rpPendingPaletteUpdates
        rpBB := if flags &&& FLUSH_FB_BIT != 0 then emptyBB else s.rpBB
        rpColorWriteMask := if flags &&& FLUSH_FB_BIT != 0 then 0 else s.rpColorWriteMask
        rpZSensitive := if flags &&& FLUSH_FB_BIT != 0 then false else s.rpZSensitive
        rpZWrite := if flags &&& FLUSH_FB_BIT != 0 then false else s.rpZWrite
        rpHasColorFeedback :=
          if flags &&& FLUSH_FB_BIT != 0 then false else s.rpHasColorFeedback
        rpHasAA1 := if flags &&& FLUSH_FB_BIT != 0 then false else s.rpHasAA1
        rpHasScanmsk := if flags &&& FLUSH_FB_BIT != 0 then false else s.rpHasScanmsk
        dirtyFlags := if flags &&& FLUSH_FB_BIT != 0 then DIRTY_ALL else s.dirtyFlags
        rpLabelKey :=
          if flags &&& FLUSH_FB_BIT != 0 && s.rpPrims.length != 0 then s.rpLabelKey + 1
          else s.rpLabelKey
        trace := s.trace ++
          (if flags &&& FLUSH_FB_BIT != 0 && s.rpPrims.length != 0 then
            [.flushRendering s.rpPrims.length s.rpStateVectors.length s.rpNumTextures
              s.rpPendingPaletteUpdates s.rpBB
              (tileSizeLog2 s.rpBB s.rpPrims.length s.samplingRateYLog2) reason]
           else []) } := by
    intro flags reason s
    unfold flushPhaseFb flushRenderPassFn emit
    split_ifs <;> simp_all
  have hwbP : ∀ (flags : Nat) (s : GSState), flushPhaseWb flags s =
      { s with
        syncVramHostPages :=
          if flags &&& FLUSH_WRITE_BACK_BIT != 0 then [] else s.syncVramHostPages
        trace := s.trace ++
          (if flags &&& FLUSH_WRITE_BACK_BIT != 0 && s.syncVramHostPages != [] then
            [.flushReadback s.syncVramHostPages] else []) } := by
    intro flags s
    unfold flushPhaseWb emit
    split_ifs <;> simp_all
  have hmain : ∀ (flags : Nat) (reason : FlushReason) (s : GSState),
      (interfaceFlush flags reason s).trace = s.trace ++ specFlushPhases flags reason s := by
    intro flags reason s
    unfold interfaceFlush
    rw [hsync, hcopy, hcacheP, hfbP, hwbP]
    simp [specFlushPhases, List.append_assoc]
  refine ⟨hmain, ?_⟩
  intro flags reason s h1 h2
  have hcache : flags &&& FLUSH_CACHE_BIT = 0 := by
    rw [show FLUSH_CACHE_BIT =
      (FLUSH_CACHE_BIT ||| FLUSH_FB_BIT ||| FLUSH_WRITE_BACK_BIT) &&& FLUSH_CACHE_BIT from rfl,
      ← Nat.and_assoc, h2]
    exact Nat.zero_and _
  have hfb : flags &&& FLUSH_FB_BIT = 0 := by
    rw [show FLUSH_FB_BIT =
      (FLUSH_CACHE_BIT ||| FLUSH_FB_BIT ||| FLUSH_WRITE_BACK_BIT) &&& FLUSH_FB_BIT from rfl,
      ← Nat.and_assoc, h2]
    exact Nat.zero_and _
  have hwb : flags &&& FLUSH_WRITE_BACK_BIT = 0 := by
    rw [show FLUSH_WRITE_BACK_BIT =
      (FLUSH_CACHE_BIT ||| FLUSH_FB_BIT ||| FLUSH_WRITE_BACK_BIT) &&& FLUSH_WRITE_BACK_BIT
      from rfl, ← Nat.and_assoc, h2]
    exact Nat.zero_and _
  rw [hmain]
  simp [specFlushPhases, h1, h2, hcache, hfb, hwb]

/-- Witness for C6: a copy-only flush (mask = COPY bit) on the reset
state emits exactly the copy-overlap barrier. -/
theorem flush_lattice_order_C6_witness :
    (interfaceFlush FLUSH_COPY_BIT .copyHazard {}).trace =
      ({} : GSState).trace ++
      (if FLUSH_COPY_BIT &&& FLUSH_HOST_VRAM_SYNC_BIT != 0 &&
          ({} : GSState).syncHostVramPages != [] then
        [.flushHostVramCopy ({} : GSState).syncHostVramPages] else []) ++
      [.transferOverlapBarrier] :=
  flush_lattice_order_C6.2 FLUSH_COPY_BIT .copyHazard {} (by decide) (by decide)

/-- C7: a draw is rejected as degenerate exactly when one of the spec's
four conditions holds — empty scissor, depth test NEVER, alpha test
NEVER with fail mode KEEP, or both Z and color writes masked off — and
otherwise the primitive proceeds into `drawing_kick_append`. -/
theorem degenerate_draw_conditions_C7 :
    (∀ s : GSState, s.dirtyFlags &&& DIRTY_DEGENERATE ≠ 0 →
      (drawIsDegenerate s).1 = specDegenerateDraw s) ∧
    (∀ (listPrim fanPrim quad : Bool) (numV : Nat) (s : GSState),
      numV ≤ s.vq.length →
      drawingKickPrimitive listPrim fanPrim quad numV false s =
        drawingKickMaintainQueue listPrim fanPrim
          (if (drawIsDegenerate s).1 then (drawIsDegenerate s).2
           else drawingKickAppend quad numV (drawIsDegenerate s).2)) := by
  constructor
  · intro s h
    unfold drawIsDegenerate getAndClearDirty
    unfold specDegenerateDraw specScissorEmpty specDepthNever specAlphaNeverKeep
      specWritesMasked
    simp only [bne_iff_ne, ne_eq, h, not_false_eq_true, if_true]
    split_ifs <;> simp_all [GSState.ctx, Bool.and_comm]
  · intro listPrim fanPrim quad numV s h
    unfold drawingKickPrimitive
    rw [if_neg (by omega)]
    simp only [Bool.not_false, if_true]
    cases hd : drawIsDegenerate s with
    | mk b s' => cases b <;> simp

/-- Witness for C7: on the reset register state (with a degenerate-dirty
bit set) the draw is not degenerate, matching the spec predicate; and a
2-deep queue dispatches through the append path. -/
theorem degenerate_draw_conditions_C7_witness :
    (drawIsDegenerate { ({} : GSState) with dirtyFlags := DIRTY_ALL }).1 =
      specDegenerateDraw { ({} : GSState) with dirtyFlags := DIRTY_ALL } ∧
    (let s := vertexKickXYZ spriteV2 (vertexKickXYZ spriteV1 {});
     drawingKickPrimitive true false true 2 false s =
      drawingKickMaintainQueue true false
        (if (drawIsDegenerate s).1 then (drawIsDegenerate s).2
         else drawingKickAppend true 2 (drawIsDegenerate s).2)) :=
  ⟨degenerate_draw_conditions_C7.1 _ (by decide),
   degenerate_draw_conditions_C7.2 true false true 2
     (vertexKickXYZ spriteV2 (vertexKickXYZ spriteV1 {})) (by decide)⟩

/-- C8: for a flushed render pass, the chosen coarse tile size log2 is
the spec's three-threshold function of the binning cost
(tile_width × tile_height × num_primitives over 8×8 coarse tiles),
biased down by one under vertical super-sampling; stated for costs below
2^32, where the source's uint32 product does not wrap. -/
theorem coarse_tile_size_C8 (bb : BBox) (numPrims yLog2 : Nat)
    (hc : ((sarInt (bb.z - bb.x) FB_SWIZZLE_WIDTH_LOG2).toNat + 1) *
          ((sarInt (bb.w - bb.y) FB_SWIZZLE_HEIGHT_LOG2).toNat + 1) * numPrims < 2 ^ 32) :
    tileSizeLog2 bb numPrims yLog2 =
      specCoarseTileLog2
        (((sarInt (bb.z - bb.x) FB_SWIZZLE_WIDTH_LOG2).toNat + 1) *
         ((sarInt (bb.w - bb.y) FB_SWIZZLE_HEIGHT_LOG2).toNat + 1) * numPrims)
        (yLog2 != 0) := by
  unfold tileSizeLog2 specCoarseTileLog2
  simp only [Nat.mod_eq_of_lt hc]
  norm_num

/-- Witness for C8: the trivial sprite's 25×25-pixel pass with one
primitive has cost 16, hence tile size log2 = 3. -/
theorem coarse_tile_size_C8_witness :
    tileSizeLog2 { x := 7, y := 7, z := 31, w := 31 } 1 0 = specCoarseTileLog2 16 false ∧
    tileSizeLog2 { x := 7, y := 7, z := 31, w := 31 } 1 0 = 3 := by
  have h := coarse_tile_size_C8 { x := 7, y := 7, z := 31, w := 31 } 1 0 (by decide)
  exact ⟨by simpa using h, by decide⟩

/-- C9: with PRMODECONT.AC = 0, writing PRIM through the register
dispatch updates only the PRIM primitive-type field of the internal PRIM
register; CTXT and every other primitive mode bit (IIP, TME, FGE, ABE,
AA1, FST, FIX) keep their previous values. -/
theorem prmodecont_gates_prim_C9 (L : Limits) (payload : Nat) (s : GSState)
    (h : s.prmodecontAC = 0) :
    (writeRegister L 0x00 payload s).prim = { s.prim with prim := payload &&& 7 } := by
  simp [writeRegister, adPRIM, h, decodePRIM]

/-- Witness for C9: writing PRIM = TriangleList with every mode bit set,
under AC = 0, to a state whose PRIM register is the sprite configuration
changes only the primitive type. -/
theorem prmodecont_gates_prim_C9_witness :
    (writeRegister defaultLimits 0x00 0x7fb
      { prim := { prim := 6, ctxt := 1, tme := 1 }, prmodecontAC := 0 }).prim =
      { ({ prim := 6, ctxt := 1, tme := 1 } : PRIMReg) with prim := 0x7fb &&& 7 } :=
  prmodecont_gates_prim_C9 defaultLimits 0x7fb
    { prim := { prim := 6, ctxt := 1, tme := 1 }, prmodecontAC := 0 } (by decide)

/-- C10: writing the TEXFLUSH register through the dispatch table is a
complete no-op on the interface state: no register changes, no tracker
or back-end call, no cached-texture invalidation (the source relies on
the page tracker's own hazard tracking instead). -/
theorem texflush_noop_C10 :
    ∀ (L : Limits) (payload : Nat) (s : GSState), writeRegister L 0x3f payload s = s := by
  intro L payload s
  rfl

end ParallelGS
